import Mathlib

/-!
Verification of two fragments of the onnxruntime repository:

1. `SgemmTransposePackB16x4Lasx.s` — a LoongArch LASX assembly routine
   (`MlasSgemmTransposePackB16x4Lasx`) packing a 16-row by 4-column window of
   a source matrix into a GEMM packed buffer.  We embed the routine at the
   level of 256-bit vector registers: a register holds 8 single-precision
   lanes, modelled as two 4-lane halves of an arbitrary element type `α`
   (the routine performs pure data movement, so its behaviour is uniform in
   the element type).  Memory is a function `Nat → α` addressed in units of
   one 4-byte element; the entry point's `slli.d $a2, $a2, 2` (elements to
   bytes) is therefore the identity in this model, and the byte offsets
   0x40/0x80/0xc0 of `xvst` become the element offsets 16/32/48.

2. `core/providers/nnapi/nnapi_builtin/nnapi_api_helper.cc` — NNAPI device
   enumeration and feature-level computation (`GetTargetDevices`,
   `GetDeviceFeatureLevelInternal`, `GetNNAPIEffectiveFeatureLevel...`).
   The NNAPI C API surface (`NnApi` function table, status codes, the
   `RETURN_STATUS_ON_ERROR_WITH_NOTE` macro, the enum constants) lives in
   headers outside the two given files and is modelled from the spec where
   noted.
-/

/-- Lower or upper 128-bit half of an LASX register: 4 single-precision
lanes, element type kept abstract since the routine only moves data. -/
structure Vec4 (α : Type) where
  e0 : α
  e1 : α
  e2 : α
  e3 : α
deriving DecidableEq, Repr

/-- A 256-bit LASX register `xr` viewed as 8 word lanes: lanes 0-3 are the
low 128-bit half, lanes 4-7 the high half. -/
structure Reg8 (α : Type) where
  lo : Vec4 α
  hi : Vec4 α
deriving DecidableEq, Repr

/-- Semantics of `vld vr, addr`: load 4 consecutive 32-bit elements from
memory (element-unit addressing). -/
def vld {α : Type} (src : Nat → α) (addr : Nat) : Vec4 α :=
  ⟨src addr, src (addr + 1), src (addr + 2), src (addr + 3)⟩

/-- Semantics of `xvpermi.q xd, xj, 0x2` as used in the routine: the low
half of `xd` (just loaded by `vld`) is kept, the high half is replaced by
the low half of `xj`.  The combined effect of the `vld`/`vldx` pair plus
`xvpermi.q` is to build a register from two 4-element rows. -/
def xvpermi_q_0x2 {α : Type} (xdLo xjLo : Vec4 α) : Reg8 α :=
  ⟨xdLo, xjLo⟩

/-- Semantics of `xvilvl.w xd, xj, xk`: per 128-bit half, interleave the
low-order words, even result lanes taken from `xk`, odd lanes from `xj`. -/
def xvilvl_w {α : Type} (xj xk : Reg8 α) : Reg8 α :=
  ⟨⟨xk.lo.e0, xj.lo.e0, xk.lo.e1, xj.lo.e1⟩,
   ⟨xk.hi.e0, xj.hi.e0, xk.hi.e1, xj.hi.e1⟩⟩

/-- Semantics of `xvilvh.w xd, xj, xk`: per 128-bit half, interleave the
high-order words, even result lanes taken from `xk`, odd lanes from `xj`. -/
def xvilvh_w {α : Type} (xj xk : Reg8 α) : Reg8 α :=
  ⟨⟨xk.lo.e2, xj.lo.e2, xk.lo.e3, xj.lo.e3⟩,
   ⟨xk.hi.e2, xj.hi.e2, xk.hi.e3, xj.hi.e3⟩⟩

/-- Semantics of `xvilvl.d xd, xj, xk`: per 128-bit half, interleave the
low-order doublewords (word pairs), first from `xk`, then from `xj`. -/
def xvilvl_d {α : Type} (xj xk : Reg8 α) : Reg8 α :=
  ⟨⟨xk.lo.e0, xk.lo.e1, xj.lo.e0, xj.lo.e1⟩,
   ⟨xk.hi.e0, xk.hi.e1, xj.hi.e0, xj.hi.e1⟩⟩

/-- Semantics of `xvilvh.d xd, xj, xk`: per 128-bit half, interleave the
high-order doublewords (word pairs), first from `xk`, then from `xj`. -/
def xvilvh_d {α : Type} (xj xk : Reg8 α) : Reg8 α :=
  ⟨⟨xk.lo.e2, xk.lo.e3, xj.lo.e2, xj.lo.e3⟩,
   ⟨xk.hi.e2, xk.hi.e3, xj.hi.e2, xj.hi.e3⟩⟩

/-- Semantics of `xvst xr, addr`: store the 8 word lanes of a register to 8
consecutive element addresses, returning the updated destination memory. -/
def xvst {α : Type} (dst : Nat → α) (r : Reg8 α) (addr : Nat) : Nat → α :=
  fun a =>
    if a = addr then r.lo.e0
    else if a = addr + 1 then r.lo.e1
    else if a = addr + 2 then r.lo.e2
    else if a = addr + 3 then r.lo.e3
    else if a = addr + 4 then r.hi.e0
    else if a = addr + 5 then r.hi.e1
    else if a = addr + 6 then r.hi.e2
    else if a = addr + 7 then r.hi.e3
    else dst a

/-- The macro `TransposePackB8x4BlockLasx StoreOffset` of
`SgemmTransposePackB16x4Lasx.s`: loads 4 columns of 8 rows starting at
source address `a1` (row stride `ldb` elements), transposes the two 4x4
halves via the interleave network, and stores four 8-lane registers to the
destination at element offsets `storeOff`, `16+storeOff`, `32+storeOff`,
`48+storeOff` (byte offsets `StoreOffset`, `0x40+`, `0x80+`, `0xc0+`).
The let-bound pointers mirror the `$t6`/`$a1` pointer increments of the
assembly. -/
def TransposePackB8x4BlockLasx {α : Type} (dst src : Nat → α)
    (a0 a1 ldb storeOff : Nat) : Nat → α :=
  let t6 := a1 + (ldb + ldb)
  let a1b := t6 + (ldb + ldb)
  let t6b := a1b + (ldb + ldb)
  let xr0 := xvpermi_q_0x2 (vld src a1) (vld src a1b)
  let xr1 := xvpermi_q_0x2 (vld src (a1 + ldb)) (vld src (a1b + ldb))
  let xr2 := xvpermi_q_0x2 (vld src t6) (vld src t6b)
  let xr3 := xvpermi_q_0x2 (vld src (t6 + ldb)) (vld src (t6b + ldb))
  let xr4 := xvilvl_w xr1 xr0
  let xr5 := xvilvh_w xr1 xr0
  let xr0b := xvilvl_w xr3 xr2
  let xr1b := xvilvh_w xr3 xr2
  let xr2b := xvilvl_d xr0b xr4
  let xr3b := xvilvh_d xr0b xr4
  let d1 := xvst dst xr2b (a0 + storeOff)
  let d2 := xvst d1 xr3b (a0 + (16 + storeOff))
  let xr0c := xvilvl_d xr1b xr5
  let xr4b := xvilvh_d xr1b xr5
  let d3 := xvst d2 xr0c (a0 + (32 + storeOff))
  xvst d3 xr4b (a0 + (48 + storeOff))

/-- The routine `MlasSgemmTransposePackB16x4Lasx`: two invocations of the
8x4 block macro, the second at source address `a1 + 8*ldb` (the macro
leaves `$t6 = a1 + 6*ldb`; the entry code then sets `$a1 = $t6 + 2*ldb`)
and destination element offset 8 (byte offset `8*4`). -/
def MlasSgemmTransposePackB16x4Lasx {α : Type} (dst src : Nat → α)
    (a0 a1 ldb : Nat) : Nat → α :=
  let d1 := TransposePackB8x4BlockLasx dst src a0 a1 ldb 0
  TransposePackB8x4BlockLasx d1 src a0
    ((((a1 + (ldb + ldb)) + (ldb + ldb)) + (ldb + ldb)) + (ldb + ldb)) ldb 8

/-- The packed-buffer offset formula claimed by the spec for element
`(r, c)` of the source window: `panel(r/4) * (cols*4) + c*4 + (r%4)` with
`cols = 4` and `panel` the identity on panel indices. -/
def specPackedOffset (r c : Nat) : Nat :=
  (r / 4) * (4 * 4) + c * 4 + r % 4

/-- Inverse read-back of the packed buffer actually produced by the
routine: the destination is the 4x16 row-major transpose, so source
element `(r, c)` sits at packed element offset `c*16 + r`. -/
def unpack16x4 {α : Type} (packed : Nat → α) (r c : Nat) : α :=
  packed (c * 16 + r)

namespace onnxruntime.nnapi

/-- Modelled from the spec: `TargetDeviceOption` (declared in the NNAPI
execution-provider headers, outside the given files) — the target-device
policy: unrestricted (`ALL_DEVICES`), CPU excluded, or CPU only. -/
inductive TargetDeviceOption where
  | ALL_DEVICES : TargetDeviceOption
  | CPU_DISABLED : TargetDeviceOption
  | CPU_ONLY : TargetDeviceOption
deriving DecidableEq, Repr

/-- Modelled from the spec: `DeviceWrapper` (declared in the NNAPI
execution-provider headers) — one enumerated device: its handle (an opaque
pointer, modelled as a `Nat` id), name, type and feature level, exactly the
four fields `GetTargetDevices` pushes. -/
structure DeviceWrapper where
  device : Nat
  name : String
  type : Int
  feature_level : Int
deriving DecidableEq, Repr

instance : Inhabited DeviceWrapper := ⟨⟨0, "", 0, 0⟩⟩

/-- Modelled from the spec: onnxruntime `Status` as used here — success, or
a typed failure carrying a human-readable message. -/
inductive Status where
  | ok : Status
  | error : String → Status
deriving DecidableEq, Repr

/-- Modelled from the spec: `ANEURALNETWORKS_FEATURE_LEVEL_3` of the NNAPI
headers (NNAPI feature level 3 = Android API level 29). -/
def ANEURALNETWORKS_FEATURE_LEVEL_3 : Int := 29

/-- Modelled from the spec: `ANEURALNETWORKS_DEVICE_CPU` of the NNAPI
headers (device type code 2). -/
def ANEURALNETWORKS_DEVICE_CPU : Int := 2

/-- Modelled from the spec: `__ANDROID_API_S__` (Android 12, API level 31),
used by the `__ANDROID__` branch of `GetNNAPIRuntimeFeatureLevel`. -/
def ANDROID_API_S : Int := 31

/-- Modelled from the spec: the `NnApi` handle (nnapi-lib function table,
declared outside the given files).  Each underlying hardware query is a
total function returning a status code (0 = `ANEURALNETWORKS_NO_ERROR`)
plus its out-parameter value; `android_device_api_level` is `some l` for an
`__ANDROID__` build reporting device API level `l` and `none` otherwise. -/
structure NnApi where
  nnapi_runtime_feature_level : Int
  android_device_api_level : Option Int
  getDeviceCountCode : Int
  getDeviceCountValue : Nat
  getDeviceCode : Nat → Int
  getDeviceValue : Nat → Nat
  getNameCode : Nat → Int
  getNameValue : Nat → String
  getTypeCode : Nat → Int
  getTypeValue : Nat → Int
  getFeatureLevelCode : Nat → Int
  getFeatureLevelValue : Nat → Int

/-- `GetNNAPIRuntimeFeatureLevel` of `nnapi_api_helper.cc`: the runtime
feature level of the handle, overridden on Android by the device API level
when that is below `__ANDROID_API_S__`. -/
def GetNNAPIRuntimeFeatureLevel (nnapi_handle : NnApi) : Int :=
  match nnapi_handle.android_device_api_level with
  | none => nnapi_handle.nnapi_runtime_feature_level
  | some device_api_level =>
    if device_api_level < ANDROID_API_S then device_api_level
    else nnapi_handle.nnapi_runtime_feature_level

/-- `GetDeviceFeatureLevelInternal` of `nnapi_api_helper.cc`: the runtime
feature level, capped to the maximum feature level across the given devices
when that maximum is positive and below the runtime level.  (The C++ keeps
the running maximum in an `int64_t` initialised to `-1` and casts it to
`int32_t` only in the capping branch, where `0 < value < target` makes the
cast value-preserving, so plain `Int` is faithful.) -/
def GetDeviceFeatureLevelInternal (nnapi_handle : NnApi)
    (devices : List DeviceWrapper) : Int :=
  let target_feature_level := GetNNAPIRuntimeFeatureLevel nnapi_handle
  let devices_feature_level :=
    devices.foldl (fun acc device => max device.feature_level acc) (-1)
  if devices_feature_level > 0 ∧ devices_feature_level < target_feature_level
  then devices_feature_level
  else target_feature_level

/-- Modelled from the spec: the note text attached by
`RETURN_STATUS_ON_ERROR_WITH_NOTE` for the `i`-th device queries of
`GetTargetDevices`: `"Getting " + std::to_string(i) + "th device" ⧺ prop`. -/
def deviceNote (i : Nat) (prop : String) : String :=
  "Getting " ++ toString i ++ "th device" ++ prop

/-- One iteration body of the `GetTargetDevices` loop: the four
`RETURN_STATUS_ON_ERROR_WITH_NOTE`-guarded hardware queries for device `i`
(`ANeuralNetworks_getDevice`, `..Device_getName`, `..Device_getType`,
`..Device_getFeatureLevel`), each failure (modelled from the spec: the
macro returns a non-OK `Status` carrying the note when the call's code is
nonzero) short-circuiting with its note. -/
def gtdQuery (nnapi_handle : NnApi) (i : Nat) :
    Except String (Nat × String × Int × Int) :=
  if nnapi_handle.getDeviceCode i ≠ 0 then .error (deviceNote i "")
  else
    let device := nnapi_handle.getDeviceValue i
    if nnapi_handle.getNameCode device ≠ 0 then .error (deviceNote i "'s name")
    else if nnapi_handle.getTypeCode device ≠ 0 then
      .error (deviceNote i "'s type")
    else if nnapi_handle.getFeatureLevelCode device ≠ 0 then
      .error (deviceNote i "'s feature level")
    else
      .ok (device, nnapi_handle.getNameValue device,
        nnapi_handle.getTypeValue device,
        nnapi_handle.getFeatureLevelValue device)

/-- The `DeviceWrapper` that `GetTargetDevices` pushes for device `i` when
all four queries succeed. -/
def deviceWrapperAt (nnapi_handle : NnApi) (i : Nat) : DeviceWrapper :=
  let device := nnapi_handle.getDeviceValue i
  ⟨device, nnapi_handle.getNameValue device, nnapi_handle.getTypeValue device,
    nnapi_handle.getFeatureLevelValue device⟩

/-- The tuple `gtdQuery` returns on success. -/
def queryTuple (h : NnApi) (i : Nat) : Nat × String × Int × Int :=
  (h.getDeviceValue i, h.getNameValue (h.getDeviceValue i),
    h.getTypeValue (h.getDeviceValue i),
    h.getFeatureLevelValue (h.getDeviceValue i))

/-- The `continue` filter of the `GetTargetDevices` loop: skip a device of
type `ty` when the policy excludes it. -/
def skipDevice (target_device_option : TargetDeviceOption) (ty : Int) : Prop :=
  (target_device_option = TargetDeviceOption.CPU_DISABLED
      ∧ ty = ANEURALNETWORKS_DEVICE_CPU)
    ∨ (target_device_option = TargetDeviceOption.CPU_ONLY
      ∧ ¬ ty = ANEURALNETWORKS_DEVICE_CPU)

instance (o : TargetDeviceOption) (ty : Int) : Decidable (skipDevice o ty) := by
  unfold skipDevice
  infer_instance

/-- The device-enumeration loop of `GetTargetDevices`, indexed by the number
`n` of remaining iterations and the current device index `i`, carrying the
devices vector and `cpu_index` (`-1` while no CPU device was pushed).  A
failing query ends the loop with its error status and the vector as
appended so far. -/
def gtdLoop (nnapi_handle : NnApi) (target_device_option : TargetDeviceOption) :
    Nat → Nat → List DeviceWrapper → Int → Status × List DeviceWrapper × Int
  | 0, _, devices, cpu_index => (Status.ok, devices, cpu_index)
  | n + 1, i, devices, cpu_index =>
    match gtdQuery nnapi_handle i with
    | .error e => (Status.error e, devices, cpu_index)
    | .ok (device, device_name, device_type, curr_device_feature_level) =>
      if skipDevice target_device_option device_type then
        gtdLoop nnapi_handle target_device_option n (i + 1) devices cpu_index
      else
        gtdLoop nnapi_handle target_device_option n (i + 1)
          (devices ++
            [⟨device, device_name, device_type, curr_device_feature_level⟩])
          (if device_type = ANEURALNETWORKS_DEVICE_CPU
           then (devices.length : Int) else cpu_index)

/-- The `std::swap(devices[devices.size() - 1], devices[cpu_index])` of
`GetTargetDevices`: exchange the elements at positions `i` and `j`. -/
def listSwap (l : List DeviceWrapper) (i j : Nat) : List DeviceWrapper :=
  (l.set i (l.getD j default)).set j (l.getD i default)

/-- `GetTargetDevices` of `nnapi_api_helper.cc`: succeeds with nothing added
below feature level 3; otherwise enumerates devices, appending every device
the policy admits (recording `cpu_index` for CPU-typed devices) and finally
swapping the CPU entry to the end.  The devices vector is an in-out
reference in C++, modelled as input plus returned value. -/
def GetTargetDevices (nnapi_handle : NnApi)
    (target_device_option : TargetDeviceOption)
    (devices : List DeviceWrapper) : Status × List DeviceWrapper :=
  if GetNNAPIRuntimeFeatureLevel nnapi_handle < ANEURALNETWORKS_FEATURE_LEVEL_3
  then (Status.ok, devices)
  else if nnapi_handle.getDeviceCountCode ≠ 0 then
    (Status.error "Getting count of available devices", devices)
  else
    match gtdLoop nnapi_handle target_device_option
        nnapi_handle.getDeviceCountValue 0 devices (-1) with
    | (Status.error e, devs, _) => (Status.error e, devs)
    | (Status.ok, devs, cpu_index) =>
      if cpu_index ≠ -1 ∧ cpu_index ≠ (devs.length : Int) - 1 then
        (Status.ok, listSwap devs cpu_index.toNat (devs.length - 1))
      else (Status.ok, devs)

/-- `GetNNAPIEffectiveFeatureLevelFromTargetDeviceOption` of
`nnapi_api_helper.cc`: enumerate target devices into a fresh vector, return
`-1` on failure, else the device-capped feature level. -/
def GetNNAPIEffectiveFeatureLevelFromTargetDeviceOption
    (nnapi_handle : NnApi) (target_device_option : TargetDeviceOption) : Int :=
  match GetTargetDevices nnapi_handle target_device_option [] with
  | (Status.error _, _) => -1
  | (Status.ok, nnapi_target_devices) =>
    GetDeviceFeatureLevelInternal nnapi_handle nnapi_target_devices

/-- `GetNNAPIEffectiveFeatureLevel` of `nnapi_api_helper.cc`. -/
def GetNNAPIEffectiveFeatureLevel (nnapi_handle : NnApi)
    (device_handles : List DeviceWrapper) : Int :=
  GetDeviceFeatureLevelInternal nnapi_handle device_handles

/-- The devices the loop appends for index range `[i, i+n)` when every query
in that range succeeds: those the policy filter admits, in index order. -/
def keptDevices (nnapi_handle : NnApi)
    (target_device_option : TargetDeviceOption) : Nat → Nat → List DeviceWrapper
  | _, 0 => []
  | i, n + 1 =>
    let d := deviceWrapperAt nnapi_handle i
    if skipDevice target_device_option d.type then
      keptDevices nnapi_handle target_device_option (i + 1) n
    else d :: keptDevices nnapi_handle target_device_option (i + 1) n

/-- The value of `cpu_index` after the loop runs over index range `[i, i+n)`
with all queries succeeding, starting from devices-vector length `len` and
current value `c`. -/
def cpuIndexAfter (nnapi_handle : NnApi)
    (target_device_option : TargetDeviceOption) : Nat → Nat → Nat → Int → Int
  | _, 0, _, c => c
  | i, n + 1, len, c =>
    let d := deviceWrapperAt nnapi_handle i
    if skipDevice target_device_option d.type then
      cpuIndexAfter nnapi_handle target_device_option (i + 1) n len c
    else
      cpuIndexAfter nnapi_handle target_device_option (i + 1) n (len + 1)
        (if d.type = ANEURALNETWORKS_DEVICE_CPU then (len : Int) else c)

end onnxruntime.nnapi

lemma xvst_out {α : Type} (dst : Nat → α) (r : Reg8 α) (addr a : Nat)
    (h : a < addr ∨ addr + 8 ≤ a) : xvst dst r addr a = dst a := by
  unfold xvst
  iterate 8 rw [if_neg (by omega)]

lemma pack_frame {α : Type} (dst src : Nat → α) (a0 a1 ldb a : Nat)
    (h : a < a0 ∨ a0 + 64 ≤ a) :
    MlasSgemmTransposePackB16x4Lasx dst src a0 a1 ldb a = dst a := by
  unfold MlasSgemmTransposePackB16x4Lasx TransposePackB8x4BlockLasx
  rw [xvst_out _ _ _ _ (by omega), xvst_out _ _ _ _ (by omega),
      xvst_out _ _ _ _ (by omega), xvst_out _ _ _ _ (by omega),
      xvst_out _ _ _ _ (by omega), xvst_out _ _ _ _ (by omega),
      xvst_out _ _ _ _ (by omega), xvst_out _ _ _ _ (by omega)]

lemma xvst_read0 {α : Type} (dst : Nat → α) (r : Reg8 α) (addr q : Nat)
    (hq : q = addr + 0) : xvst dst r addr q = r.lo.e0 := by
  subst hq
  unfold xvst
  rw [if_pos rfl]

lemma xvst_read1 {α : Type} (dst : Nat → α) (r : Reg8 α) (addr q : Nat)
    (hq : q = addr + 1) : xvst dst r addr q = r.lo.e1 := by
  subst hq
  unfold xvst
  rw [if_neg (by omega)]
  rw [if_pos rfl]

lemma xvst_read2 {α : Type} (dst : Nat → α) (r : Reg8 α) (addr q : Nat)
    (hq : q = addr + 2) : xvst dst r addr q = r.lo.e2 := by
  subst hq
  unfold xvst
  rw [if_neg (by omega)]
  rw [if_neg (by omega)]
  rw [if_pos rfl]

lemma xvst_read3 {α : Type} (dst : Nat → α) (r : Reg8 α) (addr q : Nat)
    (hq : q = addr + 3) : xvst dst r addr q = r.lo.e3 := by
  subst hq
  unfold xvst
  rw [if_neg (by omega)]
  rw [if_neg (by omega)]
  rw [if_neg (by omega)]
  rw [if_pos rfl]

lemma xvst_read4 {α : Type} (dst : Nat → α) (r : Reg8 α) (addr q : Nat)
    (hq : q = addr + 4) : xvst dst r addr q = r.hi.e0 := by
  subst hq
  unfold xvst
  rw [if_neg (by omega)]
  rw [if_neg (by omega)]
  rw [if_neg (by omega)]
  rw [if_neg (by omega)]
  rw [if_pos rfl]

lemma xvst_read5 {α : Type} (dst : Nat → α) (r : Reg8 α) (addr q : Nat)
    (hq : q = addr + 5) : xvst dst r addr q = r.hi.e1 := by
  subst hq
  unfold xvst
  rw [if_neg (by omega)]
  rw [if_neg (by omega)]
  rw [if_neg (by omega)]
  rw [if_neg (by omega)]
  rw [if_neg (by omega)]
  rw [if_pos rfl]

lemma xvst_read6 {α : Type} (dst : Nat → α) (r : Reg8 α) (addr q : Nat)
    (hq : q = addr + 6) : xvst dst r addr q = r.hi.e2 := by
  subst hq
  unfold xvst
  rw [if_neg (by omega)]
  rw [if_neg (by omega)]
  rw [if_neg (by omega)]
  rw [if_neg (by omega)]
  rw [if_neg (by omega)]
  rw [if_neg (by omega)]
  rw [if_pos rfl]

lemma xvst_read7 {α : Type} (dst : Nat → α) (r : Reg8 α) (addr q : Nat)
    (hq : q = addr + 7) : xvst dst r addr q = r.hi.e3 := by
  subst hq
  unfold xvst
  rw [if_neg (by omega)]
  rw [if_neg (by omega)]
  rw [if_neg (by omega)]
  rw [if_neg (by omega)]
  rw [if_neg (by omega)]
  rw [if_neg (by omega)]
  rw [if_neg (by omega)]
  rw [if_pos rfl]

lemma TransposePackB8x4BlockLasx_out {α : Type} (dst src : Nat → α)
    (a0 a1 ldb so a : Nat)
    (h0 : a < a0 + so ∨ a0 + so + 8 ≤ a)
    (h1 : a < a0 + (16 + so) ∨ a0 + (16 + so) + 8 ≤ a)
    (h2 : a < a0 + (32 + so) ∨ a0 + (32 + so) + 8 ≤ a)
    (h3 : a < a0 + (48 + so) ∨ a0 + (48 + so) + 8 ≤ a) :
    TransposePackB8x4BlockLasx dst src a0 a1 ldb so a = dst a := by
  unfold TransposePackB8x4BlockLasx
  rw [xvst_out _ _ _ _ h3, xvst_out _ _ _ _ h2, xvst_out _ _ _ _ h1,
      xvst_out _ _ _ _ h0]

lemma TransposePackB8x4BlockLasx_read0 {α : Type} (dst src : Nat → α)
    (a0 a1 ldb so q o : Nat) (ho : o < 8)
    (hq : q = a0 + (16 * 0 + so) + o) :
    TransposePackB8x4BlockLasx dst src a0 a1 ldb so q
      = src (a1 + (o * ldb + 0)) := by
  subst hq
  interval_cases o
  · unfold TransposePackB8x4BlockLasx
    rw [xvst_out _ _ _ _ (by omega)]
    rw [xvst_out _ _ _ _ (by omega)]
    rw [xvst_out _ _ _ _ (by omega)]
    rw [xvst_read0 _ _ _ _ (by omega)]
    simp only [xvilvl_w, xvilvh_w, xvilvl_d, xvilvh_d, xvpermi_q_0x2, vld]
    congr 1
    omega
  · unfold TransposePackB8x4BlockLasx
    rw [xvst_out _ _ _ _ (by omega)]
    rw [xvst_out _ _ _ _ (by omega)]
    rw [xvst_out _ _ _ _ (by omega)]
    rw [xvst_read1 _ _ _ _ (by omega)]
    simp only [xvilvl_w, xvilvh_w, xvilvl_d, xvilvh_d, xvpermi_q_0x2, vld]
    congr 1
    omega
  · unfold TransposePackB8x4BlockLasx
    rw [xvst_out _ _ _ _ (by omega)]
    rw [xvst_out _ _ _ _ (by omega)]
    rw [xvst_out _ _ _ _ (by omega)]
    rw [xvst_read2 _ _ _ _ (by omega)]
    simp only [xvilvl_w, xvilvh_w, xvilvl_d, xvilvh_d, xvpermi_q_0x2, vld]
    congr 1
    omega
  · unfold TransposePackB8x4BlockLasx
    rw [xvst_out _ _ _ _ (by omega)]
    rw [xvst_out _ _ _ _ (by omega)]
    rw [xvst_out _ _ _ _ (by omega)]
    rw [xvst_read3 _ _ _ _ (by omega)]
    simp only [xvilvl_w, xvilvh_w, xvilvl_d, xvilvh_d, xvpermi_q_0x2, vld]
    congr 1
    omega
  · unfold TransposePackB8x4BlockLasx
    rw [xvst_out _ _ _ _ (by omega)]
    rw [xvst_out _ _ _ _ (by omega)]
    rw [xvst_out _ _ _ _ (by omega)]
    rw [xvst_read4 _ _ _ _ (by omega)]
    simp only [xvilvl_w, xvilvh_w, xvilvl_d, xvilvh_d, xvpermi_q_0x2, vld]
    congr 1
    omega
  · unfold TransposePackB8x4BlockLasx
    rw [xvst_out _ _ _ _ (by omega)]
    rw [xvst_out _ _ _ _ (by omega)]
    rw [xvst_out _ _ _ _ (by omega)]
    rw [xvst_read5 _ _ _ _ (by omega)]
    simp only [xvilvl_w, xvilvh_w, xvilvl_d, xvilvh_d, xvpermi_q_0x2, vld]
    congr 1
    omega
  · unfold TransposePackB8x4BlockLasx
    rw [xvst_out _ _ _ _ (by omega)]
    rw [xvst_out _ _ _ _ (by omega)]
    rw [xvst_out _ _ _ _ (by omega)]
    rw [xvst_read6 _ _ _ _ (by omega)]
    simp only [xvilvl_w, xvilvh_w, xvilvl_d, xvilvh_d, xvpermi_q_0x2, vld]
    congr 1
    omega
  · unfold TransposePackB8x4BlockLasx
    rw [xvst_out _ _ _ _ (by omega)]
    rw [xvst_out _ _ _ _ (by omega)]
    rw [xvst_out _ _ _ _ (by omega)]
    rw [xvst_read7 _ _ _ _ (by omega)]
    simp only [xvilvl_w, xvilvh_w, xvilvl_d, xvilvh_d, xvpermi_q_0x2, vld]
    congr 1
    omega

lemma TransposePackB8x4BlockLasx_read1 {α : Type} (dst src : Nat → α)
    (a0 a1 ldb so q o : Nat) (ho : o < 8)
    (hq : q = a0 + (16 * 1 + so) + o) :
    TransposePackB8x4BlockLasx dst src a0 a1 ldb so q
      = src (a1 + (o * ldb + 1)) := by
  subst hq
  interval_cases o
  · unfold TransposePackB8x4BlockLasx
    rw [xvst_out _ _ _ _ (by omega)]
    rw [xvst_out _ _ _ _ (by omega)]
    rw [xvst_read0 _ _ _ _ (by omega)]
    simp only [xvilvl_w, xvilvh_w, xvilvl_d, xvilvh_d, xvpermi_q_0x2, vld]
    congr 1
    omega
  · unfold TransposePackB8x4BlockLasx
    rw [xvst_out _ _ _ _ (by omega)]
    rw [xvst_out _ _ _ _ (by omega)]
    rw [xvst_read1 _ _ _ _ (by omega)]
    simp only [xvilvl_w, xvilvh_w, xvilvl_d, xvilvh_d, xvpermi_q_0x2, vld]
    congr 1
    omega
  · unfold TransposePackB8x4BlockLasx
    rw [xvst_out _ _ _ _ (by omega)]
    rw [xvst_out _ _ _ _ (by omega)]
    rw [xvst_read2 _ _ _ _ (by omega)]
    simp only [xvilvl_w, xvilvh_w, xvilvl_d, xvilvh_d, xvpermi_q_0x2, vld]
    congr 1
    omega
  · unfold TransposePackB8x4BlockLasx
    rw [xvst_out _ _ _ _ (by omega)]
    rw [xvst_out _ _ _ _ (by omega)]
    rw [xvst_read3 _ _ _ _ (by omega)]
    simp only [xvilvl_w, xvilvh_w, xvilvl_d, xvilvh_d, xvpermi_q_0x2, vld]
    congr 1
    omega
  · unfold TransposePackB8x4BlockLasx
    rw [xvst_out _ _ _ _ (by omega)]
    rw [xvst_out _ _ _ _ (by omega)]
    rw [xvst_read4 _ _ _ _ (by omega)]
    simp only [xvilvl_w, xvilvh_w, xvilvl_d, xvilvh_d, xvpermi_q_0x2, vld]
    congr 1
    omega
  · unfold TransposePackB8x4BlockLasx
    rw [xvst_out _ _ _ _ (by omega)]
    rw [xvst_out _ _ _ _ (by omega)]
    rw [xvst_read5 _ _ _ _ (by omega)]
    simp only [xvilvl_w, xvilvh_w, xvilvl_d, xvilvh_d, xvpermi_q_0x2, vld]
    congr 1
    omega
  · unfold TransposePackB8x4BlockLasx
    rw [xvst_out _ _ _ _ (by omega)]
    rw [xvst_out _ _ _ _ (by omega)]
    rw [xvst_read6 _ _ _ _ (by omega)]
    simp only [xvilvl_w, xvilvh_w, xvilvl_d, xvilvh_d, xvpermi_q_0x2, vld]
    congr 1
    omega
  · unfold TransposePackB8x4BlockLasx
    rw [xvst_out _ _ _ _ (by omega)]
    rw [xvst_out _ _ _ _ (by omega)]
    rw [xvst_read7 _ _ _ _ (by omega)]
    simp only [xvilvl_w, xvilvh_w, xvilvl_d, xvilvh_d, xvpermi_q_0x2, vld]
    congr 1
    omega

lemma TransposePackB8x4BlockLasx_read2 {α : Type} (dst src : Nat → α)
    (a0 a1 ldb so q o : Nat) (ho : o < 8)
    (hq : q = a0 + (16 * 2 + so) + o) :
    TransposePackB8x4BlockLasx dst src a0 a1 ldb so q
      = src (a1 + (o * ldb + 2)) := by
  subst hq
  interval_cases o
  · unfold TransposePackB8x4BlockLasx
    rw [xvst_out _ _ _ _ (by omega)]
    rw [xvst_read0 _ _ _ _ (by omega)]
    simp only [xvilvl_w, xvilvh_w, xvilvl_d, xvilvh_d, xvpermi_q_0x2, vld]
    congr 1
    omega
  · unfold TransposePackB8x4BlockLasx
    rw [xvst_out _ _ _ _ (by omega)]
    rw [xvst_read1 _ _ _ _ (by omega)]
    simp only [xvilvl_w, xvilvh_w, xvilvl_d, xvilvh_d, xvpermi_q_0x2, vld]
    congr 1
    omega
  · unfold TransposePackB8x4BlockLasx
    rw [xvst_out _ _ _ _ (by omega)]
    rw [xvst_read2 _ _ _ _ (by omega)]
    simp only [xvilvl_w, xvilvh_w, xvilvl_d, xvilvh_d, xvpermi_q_0x2, vld]
    congr 1
    omega
  · unfold TransposePackB8x4BlockLasx
    rw [xvst_out _ _ _ _ (by omega)]
    rw [xvst_read3 _ _ _ _ (by omega)]
    simp only [xvilvl_w, xvilvh_w, xvilvl_d, xvilvh_d, xvpermi_q_0x2, vld]
    congr 1
    omega
  · unfold TransposePackB8x4BlockLasx
    rw [xvst_out _ _ _ _ (by omega)]
    rw [xvst_read4 _ _ _ _ (by omega)]
    simp only [xvilvl_w, xvilvh_w, xvilvl_d, xvilvh_d, xvpermi_q_0x2, vld]
    congr 1
    omega
  · unfold TransposePackB8x4BlockLasx
    rw [xvst_out _ _ _ _ (by omega)]
    rw [xvst_read5 _ _ _ _ (by omega)]
    simp only [xvilvl_w, xvilvh_w, xvilvl_d, xvilvh_d, xvpermi_q_0x2, vld]
    congr 1
    omega
  · unfold TransposePackB8x4BlockLasx
    rw [xvst_out _ _ _ _ (by omega)]
    rw [xvst_read6 _ _ _ _ (by omega)]
    simp only [xvilvl_w, xvilvh_w, xvilvl_d, xvilvh_d, xvpermi_q_0x2, vld]
    congr 1
    omega
  · unfold TransposePackB8x4BlockLasx
    rw [xvst_out _ _ _ _ (by omega)]
    rw [xvst_read7 _ _ _ _ (by omega)]
    simp only [xvilvl_w, xvilvh_w, xvilvl_d, xvilvh_d, xvpermi_q_0x2, vld]
    congr 1
    omega

lemma TransposePackB8x4BlockLasx_read3 {α : Type} (dst src : Nat → α)
    (a0 a1 ldb so q o : Nat) (ho : o < 8)
    (hq : q = a0 + (16 * 3 + so) + o) :
    TransposePackB8x4BlockLasx dst src a0 a1 ldb so q
      = src (a1 + (o * ldb + 3)) := by
  subst hq
  interval_cases o
  · unfold TransposePackB8x4BlockLasx
    rw [xvst_read0 _ _ _ _ (by omega)]
    simp only [xvilvl_w, xvilvh_w, xvilvl_d, xvilvh_d, xvpermi_q_0x2, vld]
    congr 1
    omega
  · unfold TransposePackB8x4BlockLasx
    rw [xvst_read1 _ _ _ _ (by omega)]
    simp only [xvilvl_w, xvilvh_w, xvilvl_d, xvilvh_d, xvpermi_q_0x2, vld]
    congr 1
    omega
  · unfold TransposePackB8x4BlockLasx
    rw [xvst_read2 _ _ _ _ (by omega)]
    simp only [xvilvl_w, xvilvh_w, xvilvl_d, xvilvh_d, xvpermi_q_0x2, vld]
    congr 1
    omega
  · unfold TransposePackB8x4BlockLasx
    rw [xvst_read3 _ _ _ _ (by omega)]
    simp only [xvilvl_w, xvilvh_w, xvilvl_d, xvilvh_d, xvpermi_q_0x2, vld]
    congr 1
    omega
  · unfold TransposePackB8x4BlockLasx
    rw [xvst_read4 _ _ _ _ (by omega)]
    simp only [xvilvl_w, xvilvh_w, xvilvl_d, xvilvh_d, xvpermi_q_0x2, vld]
    congr 1
    omega
  · unfold TransposePackB8x4BlockLasx
    rw [xvst_read5 _ _ _ _ (by omega)]
    simp only [xvilvl_w, xvilvh_w, xvilvl_d, xvilvh_d, xvpermi_q_0x2, vld]
    congr 1
    omega
  · unfold TransposePackB8x4BlockLasx
    rw [xvst_read6 _ _ _ _ (by omega)]
    simp only [xvilvl_w, xvilvh_w, xvilvl_d, xvilvh_d, xvpermi_q_0x2, vld]
    congr 1
    omega
  · unfold TransposePackB8x4BlockLasx
    rw [xvst_read7 _ _ _ _ (by omega)]
    simp only [xvilvl_w, xvilvh_w, xvilvl_d, xvilvh_d, xvpermi_q_0x2, vld]
    congr 1
    omega

lemma pack_apply {α : Type} (dst src : Nat → α) (a0 a1 ldb r c : Nat)
    (hr : r < 16) (hc : c < 4) :
    MlasSgemmTransposePackB16x4Lasx dst src a0 a1 ldb (a0 + (c * 16 + r))
      = src (a1 + (r * ldb + c)) := by
  unfold MlasSgemmTransposePackB16x4Lasx
  interval_cases r <;> interval_cases c
  · rw [TransposePackB8x4BlockLasx_out _ _ _ _ _ _ _ (by omega) (by omega) (by omega) (by omega)]
    rw [TransposePackB8x4BlockLasx_read0 _ _ _ _ _ _ _ 0 (by omega) (by omega)]
  · rw [TransposePackB8x4BlockLasx_out _ _ _ _ _ _ _ (by omega) (by omega) (by omega) (by omega)]
    rw [TransposePackB8x4BlockLasx_read1 _ _ _ _ _ _ _ 0 (by omega) (by omega)]
  · rw [TransposePackB8x4BlockLasx_out _ _ _ _ _ _ _ (by omega) (by omega) (by omega) (by omega)]
    rw [TransposePackB8x4BlockLasx_read2 _ _ _ _ _ _ _ 0 (by omega) (by omega)]
  · rw [TransposePackB8x4BlockLasx_out _ _ _ _ _ _ _ (by omega) (by omega) (by omega) (by omega)]
    rw [TransposePackB8x4BlockLasx_read3 _ _ _ _ _ _ _ 0 (by omega) (by omega)]
  · rw [TransposePackB8x4BlockLasx_out _ _ _ _ _ _ _ (by omega) (by omega) (by omega) (by omega)]
    rw [TransposePackB8x4BlockLasx_read0 _ _ _ _ _ _ _ 1 (by omega) (by omega)]
  · rw [TransposePackB8x4BlockLasx_out _ _ _ _ _ _ _ (by omega) (by omega) (by omega) (by omega)]
    rw [TransposePackB8x4BlockLasx_read1 _ _ _ _ _ _ _ 1 (by omega) (by omega)]
  · rw [TransposePackB8x4BlockLasx_out _ _ _ _ _ _ _ (by omega) (by omega) (by omega) (by omega)]
    rw [TransposePackB8x4BlockLasx_read2 _ _ _ _ _ _ _ 1 (by omega) (by omega)]
  · rw [TransposePackB8x4BlockLasx_out _ _ _ _ _ _ _ (by omega) (by omega) (by omega) (by omega)]
    rw [TransposePackB8x4BlockLasx_read3 _ _ _ _ _ _ _ 1 (by omega) (by omega)]
  · rw [TransposePackB8x4BlockLasx_out _ _ _ _ _ _ _ (by omega) (by omega) (by omega) (by omega)]
    rw [TransposePackB8x4BlockLasx_read0 _ _ _ _ _ _ _ 2 (by omega) (by omega)]
  · rw [TransposePackB8x4BlockLasx_out _ _ _ _ _ _ _ (by omega) (by omega) (by omega) (by omega)]
    rw [TransposePackB8x4BlockLasx_read1 _ _ _ _ _ _ _ 2 (by omega) (by omega)]
  · rw [TransposePackB8x4BlockLasx_out _ _ _ _ _ _ _ (by omega) (by omega) (by omega) (by omega)]
    rw [TransposePackB8x4BlockLasx_read2 _ _ _ _ _ _ _ 2 (by omega) (by omega)]
  · rw [TransposePackB8x4BlockLasx_out _ _ _ _ _ _ _ (by omega) (by omega) (by omega) (by omega)]
    rw [TransposePackB8x4BlockLasx_read3 _ _ _ _ _ _ _ 2 (by omega) (by omega)]
  · rw [TransposePackB8x4BlockLasx_out _ _ _ _ _ _ _ (by omega) (by omega) (by omega) (by omega)]
    rw [TransposePackB8x4BlockLasx_read0 _ _ _ _ _ _ _ 3 (by omega) (by omega)]
  · rw [TransposePackB8x4BlockLasx_out _ _ _ _ _ _ _ (by omega) (by omega) (by omega) (by omega)]
    rw [TransposePackB8x4BlockLasx_read1 _ _ _ _ _ _ _ 3 (by omega) (by omega)]
  · rw [TransposePackB8x4BlockLasx_out _ _ _ _ _ _ _ (by omega) (by omega) (by omega) (by omega)]
    rw [TransposePackB8x4BlockLasx_read2 _ _ _ _ _ _ _ 3 (by omega) (by omega)]
  · rw [TransposePackB8x4BlockLasx_out _ _ _ _ _ _ _ (by omega) (by omega) (by omega) (by omega)]
    rw [TransposePackB8x4BlockLasx_read3 _ _ _ _ _ _ _ 3 (by omega) (by omega)]
  · rw [TransposePackB8x4BlockLasx_out _ _ _ _ _ _ _ (by omega) (by omega) (by omega) (by omega)]
    rw [TransposePackB8x4BlockLasx_read0 _ _ _ _ _ _ _ 4 (by omega) (by omega)]
  · rw [TransposePackB8x4BlockLasx_out _ _ _ _ _ _ _ (by omega) (by omega) (by omega) (by omega)]
    rw [TransposePackB8x4BlockLasx_read1 _ _ _ _ _ _ _ 4 (by omega) (by omega)]
  · rw [TransposePackB8x4BlockLasx_out _ _ _ _ _ _ _ (by omega) (by omega) (by omega) (by omega)]
    rw [TransposePackB8x4BlockLasx_read2 _ _ _ _ _ _ _ 4 (by omega) (by omega)]
  · rw [TransposePackB8x4BlockLasx_out _ _ _ _ _ _ _ (by omega) (by omega) (by omega) (by omega)]
    rw [TransposePackB8x4BlockLasx_read3 _ _ _ _ _ _ _ 4 (by omega) (by omega)]
  · rw [TransposePackB8x4BlockLasx_out _ _ _ _ _ _ _ (by omega) (by omega) (by omega) (by omega)]
    rw [TransposePackB8x4BlockLasx_read0 _ _ _ _ _ _ _ 5 (by omega) (by omega)]
  · rw [TransposePackB8x4BlockLasx_out _ _ _ _ _ _ _ (by omega) (by omega) (by omega) (by omega)]
    rw [TransposePackB8x4BlockLasx_read1 _ _ _ _ _ _ _ 5 (by omega) (by omega)]
  · rw [TransposePackB8x4BlockLasx_out _ _ _ _ _ _ _ (by omega) (by omega) (by omega) (by omega)]
    rw [TransposePackB8x4BlockLasx_read2 _ _ _ _ _ _ _ 5 (by omega) (by omega)]
  · rw [TransposePackB8x4BlockLasx_out _ _ _ _ _ _ _ (by omega) (by omega) (by omega) (by omega)]
    rw [TransposePackB8x4BlockLasx_read3 _ _ _ _ _ _ _ 5 (by omega) (by omega)]
  · rw [TransposePackB8x4BlockLasx_out _ _ _ _ _ _ _ (by omega) (by omega) (by omega) (by omega)]
    rw [TransposePackB8x4BlockLasx_read0 _ _ _ _ _ _ _ 6 (by omega) (by omega)]
  · rw [TransposePackB8x4BlockLasx_out _ _ _ _ _ _ _ (by omega) (by omega) (by omega) (by omega)]
    rw [TransposePackB8x4BlockLasx_read1 _ _ _ _ _ _ _ 6 (by omega) (by omega)]
  · rw [TransposePackB8x4BlockLasx_out _ _ _ _ _ _ _ (by omega) (by omega) (by omega) (by omega)]
    rw [TransposePackB8x4BlockLasx_read2 _ _ _ _ _ _ _ 6 (by omega) (by omega)]
  · rw [TransposePackB8x4BlockLasx_out _ _ _ _ _ _ _ (by omega) (by omega) (by omega) (by omega)]
    rw [TransposePackB8x4BlockLasx_read3 _ _ _ _ _ _ _ 6 (by omega) (by omega)]
  · rw [TransposePackB8x4BlockLasx_out _ _ _ _ _ _ _ (by omega) (by omega) (by omega) (by omega)]
    rw [TransposePackB8x4BlockLasx_read0 _ _ _ _ _ _ _ 7 (by omega) (by omega)]
  · rw [TransposePackB8x4BlockLasx_out _ _ _ _ _ _ _ (by omega) (by omega) (by omega) (by omega)]
    rw [TransposePackB8x4BlockLasx_read1 _ _ _ _ _ _ _ 7 (by omega) (by omega)]
  · rw [TransposePackB8x4BlockLasx_out _ _ _ _ _ _ _ (by omega) (by omega) (by omega) (by omega)]
    rw [TransposePackB8x4BlockLasx_read2 _ _ _ _ _ _ _ 7 (by omega) (by omega)]
  · rw [TransposePackB8x4BlockLasx_out _ _ _ _ _ _ _ (by omega) (by omega) (by omega) (by omega)]
    rw [TransposePackB8x4BlockLasx_read3 _ _ _ _ _ _ _ 7 (by omega) (by omega)]
  · rw [TransposePackB8x4BlockLasx_read0 _ _ _ _ _ _ _ 0 (by omega) (by omega)]
    congr 1
    omega
  · rw [TransposePackB8x4BlockLasx_read1 _ _ _ _ _ _ _ 0 (by omega) (by omega)]
    congr 1
    omega
  · rw [TransposePackB8x4BlockLasx_read2 _ _ _ _ _ _ _ 0 (by omega) (by omega)]
    congr 1
    omega
  · rw [TransposePackB8x4BlockLasx_read3 _ _ _ _ _ _ _ 0 (by omega) (by omega)]
    congr 1
    omega
  · rw [TransposePackB8x4BlockLasx_read0 _ _ _ _ _ _ _ 1 (by omega) (by omega)]
    congr 1
    omega
  · rw [TransposePackB8x4BlockLasx_read1 _ _ _ _ _ _ _ 1 (by omega) (by omega)]
    congr 1
    omega
  · rw [TransposePackB8x4BlockLasx_read2 _ _ _ _ _ _ _ 1 (by omega) (by omega)]
    congr 1
    omega
  · rw [TransposePackB8x4BlockLasx_read3 _ _ _ _ _ _ _ 1 (by omega) (by omega)]
    congr 1
    omega
  · rw [TransposePackB8x4BlockLasx_read0 _ _ _ _ _ _ _ 2 (by omega) (by omega)]
    congr 1
    omega
  · rw [TransposePackB8x4BlockLasx_read1 _ _ _ _ _ _ _ 2 (by omega) (by omega)]
    congr 1
    omega
  · rw [TransposePackB8x4BlockLasx_read2 _ _ _ _ _ _ _ 2 (by omega) (by omega)]
    congr 1
    omega
  · rw [TransposePackB8x4BlockLasx_read3 _ _ _ _ _ _ _ 2 (by omega) (by omega)]
    congr 1
    omega
  · rw [TransposePackB8x4BlockLasx_read0 _ _ _ _ _ _ _ 3 (by omega) (by omega)]
    congr 1
    omega
  · rw [TransposePackB8x4BlockLasx_read1 _ _ _ _ _ _ _ 3 (by omega) (by omega)]
    congr 1
    omega
  · rw [TransposePackB8x4BlockLasx_read2 _ _ _ _ _ _ _ 3 (by omega) (by omega)]
    congr 1
    omega
  · rw [TransposePackB8x4BlockLasx_read3 _ _ _ _ _ _ _ 3 (by omega) (by omega)]
    congr 1
    omega
  · rw [TransposePackB8x4BlockLasx_read0 _ _ _ _ _ _ _ 4 (by omega) (by omega)]
    congr 1
    omega
  · rw [TransposePackB8x4BlockLasx_read1 _ _ _ _ _ _ _ 4 (by omega) (by omega)]
    congr 1
    omega
  · rw [TransposePackB8x4BlockLasx_read2 _ _ _ _ _ _ _ 4 (by omega) (by omega)]
    congr 1
    omega
  · rw [TransposePackB8x4BlockLasx_read3 _ _ _ _ _ _ _ 4 (by omega) (by omega)]
    congr 1
    omega
  · rw [TransposePackB8x4BlockLasx_read0 _ _ _ _ _ _ _ 5 (by omega) (by omega)]
    congr 1
    omega
  · rw [TransposePackB8x4BlockLasx_read1 _ _ _ _ _ _ _ 5 (by omega) (by omega)]
    congr 1
    omega
  · rw [TransposePackB8x4BlockLasx_read2 _ _ _ _ _ _ _ 5 (by omega) (by omega)]
    congr 1
    omega
  · rw [TransposePackB8x4BlockLasx_read3 _ _ _ _ _ _ _ 5 (by omega) (by omega)]
    congr 1
    omega
  · rw [TransposePackB8x4BlockLasx_read0 _ _ _ _ _ _ _ 6 (by omega) (by omega)]
    congr 1
    omega
  · rw [TransposePackB8x4BlockLasx_read1 _ _ _ _ _ _ _ 6 (by omega) (by omega)]
    congr 1
    omega
  · rw [TransposePackB8x4BlockLasx_read2 _ _ _ _ _ _ _ 6 (by omega) (by omega)]
    congr 1
    omega
  · rw [TransposePackB8x4BlockLasx_read3 _ _ _ _ _ _ _ 6 (by omega) (by omega)]
    congr 1
    omega
  · rw [TransposePackB8x4BlockLasx_read0 _ _ _ _ _ _ _ 7 (by omega) (by omega)]
    congr 1
    omega
  · rw [TransposePackB8x4BlockLasx_read1 _ _ _ _ _ _ _ 7 (by omega) (by omega)]
    congr 1
    omega
  · rw [TransposePackB8x4BlockLasx_read2 _ _ _ _ _ _ _ 7 (by omega) (by omega)]
    congr 1
    omega
  · rw [TransposePackB8x4BlockLasx_read3 _ _ _ _ _ _ _ 7 (by omega) (by omega)]
    congr 1
    omega


/-- C1: the spec's packed-offset formula fails on the code: with the 16x4
source window holding value `r*4+c` at element `(r, c)` (source `fun a => a`,
`ldb = 4`), the packed buffer does not hold the value of element `(4, 0)` at
the claimed offset `panel(4/4)*(4*4) + 0*4 + 4%4 = 16` (it holds element
`(0, 1)` there). -/
theorem sgemm_packB16x4_spec_offset_counterexample :
    MlasSgemmTransposePackB16x4Lasx (fun _ => 0) (fun a => a) 0 0 4
        (specPackedOffset 4 0)
      ≠ (fun a : Nat => a) (4 * 4 + 0) := by decide

/-- C1 (amended): each source element `(r, c)` of the 16x4 window is stored
at packed element offset `c*16 + r` (column-of-16 layout), not at
`panel(r/4)*(cols*4) + c*4 + r%4`. -/
theorem sgemm_packB16x4_layout {α : Type} (dst src : Nat → α)
    (a0 a1 ldb r c : Nat) (hr : r < 16) (hc : c < 4) :
    MlasSgemmTransposePackB16x4Lasx dst src a0 a1 ldb (a0 + (c * 16 + r))
      = src (a1 + (r * ldb + c)) :=
  pack_apply dst src a0 a1 ldb r c hr hc

theorem sgemm_packB16x4_layout_witness :
    MlasSgemmTransposePackB16x4Lasx (fun _ => 0) (fun a => a) 0 0 4
        (0 + (1 * 16 + 4))
      = (fun a : Nat => a) (0 + (4 * 4 + 1)) :=
  sgemm_packB16x4_layout (fun _ => 0) (fun a => a) 0 0 4 4 1 (by decide)
    (by decide)

/-- C3: packing is pure data movement (uniform in the element type): reading
the packed buffer back through the inverse permutation `unpack16x4` recovers
every source element of the 16x4 window exactly. -/
theorem sgemm_packB16x4_unpack_recovers {α : Type} (dst src : Nat → α)
    (ldb r c : Nat) (hr : r < 16) (hc : c < 4) :
    unpack16x4 (MlasSgemmTransposePackB16x4Lasx dst src 0 0 ldb) r c
      = src (r * ldb + c) := by
  have h := pack_apply dst src 0 0 ldb r c hr hc
  simpa [unpack16x4] using h

theorem sgemm_packB16x4_unpack_recovers_witness :
    unpack16x4 (MlasSgemmTransposePackB16x4Lasx (fun _ => 0) (fun a => a) 0 0 4)
        13 2
      = (fun a : Nat => a) (13 * 4 + 2) :=
  sgemm_packB16x4_unpack_recovers (fun _ => 0) (fun a => a) 4 13 2 (by decide)
    (by decide)

/-- C5: the kernel writes only the 64-element destination region starting at
`a0`, and its output depends only on the source elements `(r, c)` of the
16x4 window at addresses `a1 + r*ldb + c`: two sources agreeing on that
window produce identical outputs everywhere. -/
theorem sgemm_packB16x4_frame {α : Type} (dst src src' : Nat → α)
    (a0 a1 ldb : Nat) :
    (∀ a, a < a0 ∨ a0 + 64 ≤ a →
        MlasSgemmTransposePackB16x4Lasx dst src a0 a1 ldb a = dst a)
    ∧ ((∀ r c, r < 16 → c < 4 →
          src (a1 + (r * ldb + c)) = src' (a1 + (r * ldb + c))) →
        ∀ a, MlasSgemmTransposePackB16x4Lasx dst src a0 a1 ldb a
          = MlasSgemmTransposePackB16x4Lasx dst src' a0 a1 ldb a) := by
  constructor
  · intro a ha
    exact pack_frame dst src a0 a1 ldb a ha
  · intro h a
    by_cases hin : a0 ≤ a ∧ a < a0 + 64
    · obtain ⟨r, c, hr, hc, rfl⟩ :
          ∃ r c, r < 16 ∧ c < 4 ∧ a = a0 + (c * 16 + r) :=
        ⟨(a - a0) % 16, (a - a0) / 16, by omega, by omega, by omega⟩
      rw [pack_apply dst src a0 a1 ldb r c hr hc,
        pack_apply dst src' a0 a1 ldb r c hr hc]
      exact h r c hr hc
    · rw [pack_frame dst src a0 a1 ldb a (by omega),
        pack_frame dst src' a0 a1 ldb a (by omega)]

theorem sgemm_packB16x4_frame_witness :
    MlasSgemmTransposePackB16x4Lasx (fun _ => 7) (fun a => a) 0 0 4 64 = 7
    ∧ MlasSgemmTransposePackB16x4Lasx (fun _ => 7) (fun a => a) 0 0 4 3
      = MlasSgemmTransposePackB16x4Lasx (fun _ => 7) (fun b => b) 0 0 4 3 :=
  ⟨(sgemm_packB16x4_frame (fun _ => 7) (fun a => a) (fun a => a) 0 0 4).1 64
      (by omega),
   (sgemm_packB16x4_frame (fun _ => 7) (fun a => a) (fun b => b) 0 0 4).2
      (fun r c hr hc => rfl) 3⟩


namespace onnxruntime.nnapi

lemma gtdLoop_ok (h : NnApi) (opt : TargetDeviceOption) :
    ∀ (n i : Nat) (devs : List DeviceWrapper) (c : Int),
      (∀ j, i ≤ j → j < i + n → gtdQuery h j = Except.ok (queryTuple h j)) →
      gtdLoop h opt n i devs c
        = (Status.ok, devs ++ keptDevices h opt i n,
            cpuIndexAfter h opt i n devs.length c) := by
  intro n
  induction n with
  | zero =>
    intro i devs c _
    simp [gtdLoop, keptDevices, cpuIndexAfter]
  | succ n ih =>
    intro i devs c hs
    have hq := hs i (le_refl i) (by omega)
    unfold gtdLoop
    rw [hq]
    simp only [queryTuple, keptDevices, cpuIndexAfter, deviceWrapperAt]
    by_cases hskip : skipDevice opt (h.getTypeValue (h.getDeviceValue i))
    · rw [if_pos hskip, if_pos hskip, if_pos hskip]
      exact ih (i + 1) devs c (fun j hj1 hj2 => hs j (by omega) (by omega))
    · rw [if_neg hskip, if_neg hskip, if_neg hskip]
      rw [ih (i + 1) _ _ (fun j hj1 hj2 => hs j (by omega) (by omega))]
      simp [List.append_assoc]

lemma gtdLoop_error (h : NnApi) (opt : TargetDeviceOption) :
    ∀ (n i f : Nat) (m : String) (devs : List DeviceWrapper) (c : Int),
      i ≤ f → f < i + n →
      (∀ j, i ≤ j → j < f → gtdQuery h j = Except.ok (queryTuple h j)) →
      gtdQuery h f = Except.error m →
      ∃ c', gtdLoop h opt n i devs c
        = (Status.error m, devs ++ keptDevices h opt i (f - i), c') := by
  intro n
  induction n with
  | zero => intro i f m devs c h1 h2 _ _; omega
  | succ n ih =>
    intro i f m devs c hif hfn hs herr
    by_cases hi : i = f
    · subst hi
      refine ⟨c, ?_⟩
      unfold gtdLoop
      rw [herr]
      simp [keptDevices]
    · have hq := hs i (le_refl i) (by omega)
      have hstep : f - i = (f - (i + 1)) + 1 := by omega
      unfold gtdLoop
      rw [hq]
      simp only [queryTuple, hstep, keptDevices, deviceWrapperAt]
      by_cases hskip : skipDevice opt (h.getTypeValue (h.getDeviceValue i))
      · rw [if_pos hskip, if_pos hskip]
        exact ih (i + 1) f m devs c (by omega) (by omega)
          (fun j hj1 hj2 => hs j (by omega) hj2) herr
      · rw [if_neg hskip, if_neg hskip]
        obtain ⟨c', hc'⟩ := ih (i + 1) f m
          (devs ++ [⟨h.getDeviceValue i, h.getNameValue (h.getDeviceValue i),
            h.getTypeValue (h.getDeviceValue i),
            h.getFeatureLevelValue (h.getDeviceValue i)⟩])
          (if h.getTypeValue (h.getDeviceValue i) = ANEURALNETWORKS_DEVICE_CPU
            then (devs.length : Int) else c)
          (by omega) (by omega) (fun j hj1 hj2 => hs j (by omega) hj2) herr
        refine ⟨c', ?_⟩
        rw [hc']
        simp [List.append_assoc]

end onnxruntime.nnapi

namespace onnxruntime.nnapi

lemma skipDevice_all (ty : Int) : ¬ skipDevice TargetDeviceOption.ALL_DEVICES ty := by
  simp [skipDevice]

lemma skipDevice_cpu_disabled (ty : Int) :
    skipDevice TargetDeviceOption.CPU_DISABLED ty ↔ ty = ANEURALNETWORKS_DEVICE_CPU := by
  simp [skipDevice]

lemma skipDevice_cpu_only (ty : Int) :
    skipDevice TargetDeviceOption.CPU_ONLY ty ↔ ¬ ty = ANEURALNETWORKS_DEVICE_CPU := by
  simp [skipDevice]

lemma keptDevices_all (h : NnApi) :
    ∀ (n i : Nat), keptDevices h TargetDeviceOption.ALL_DEVICES i n
      = (List.range' i n).map (deviceWrapperAt h) := by
  intro n
  induction n with
  | zero => intro i; simp [keptDevices]
  | succ n ih =>
    intro i
    rw [List.range'_succ]
    simp only [keptDevices, List.map_cons]
    rw [if_neg (skipDevice_all _), ih (i + 1)]

lemma cpuIndexAfter_all (h : NnApi) (iCpu count : Nat)
    (hTy : (deviceWrapperAt h iCpu).type = ANEURALNETWORKS_DEVICE_CPU)
    (huniq : ∀ j, j < count → j ≠ iCpu →
      (deviceWrapperAt h j).type ≠ ANEURALNETWORKS_DEVICE_CPU) :
    ∀ (n i len : Nat) (c : Int), i + n ≤ count →
      cpuIndexAfter h TargetDeviceOption.ALL_DEVICES i n len c
        = if i ≤ iCpu ∧ iCpu < i + n then ((len + (iCpu - i) : Nat) : Int)
          else c := by
  intro n
  induction n with
  | zero =>
    intro i len c _
    rw [cpuIndexAfter, if_neg (by omega)]
  | succ n ih =>
    intro i len c hbound
    simp only [cpuIndexAfter]
    rw [if_neg (skipDevice_all _)]
    by_cases hcase : i = iCpu
    · subst hcase
      rw [if_pos hTy, ih (i + 1) (len + 1) ((len : Int)) (by omega),
        if_neg (by omega), if_pos (by omega)]
      omega
    · rw [if_neg (huniq i (by omega) hcase),
        ih (i + 1) (len + 1) c (by omega)]
      by_cases hin : i + 1 ≤ iCpu ∧ iCpu < i + 1 + n
      · rw [if_pos hin, if_pos (by omega)]
        omega
      · rw [if_neg hin, if_neg (by omega)]

lemma keptDevices_cpu_only (h : NnApi) (iCpu count : Nat)
    (hTy : (deviceWrapperAt h iCpu).type = ANEURALNETWORKS_DEVICE_CPU)
    (huniq : ∀ j, j < count → j ≠ iCpu →
      (deviceWrapperAt h j).type ≠ ANEURALNETWORKS_DEVICE_CPU) :
    ∀ (n i : Nat), i + n ≤ count →
      keptDevices h TargetDeviceOption.CPU_ONLY i n
        = if i ≤ iCpu ∧ iCpu < i + n then [deviceWrapperAt h iCpu] else [] := by
  intro n
  induction n with
  | zero => intro i _; rw [keptDevices, if_neg (by omega)]
  | succ n ih =>
    intro i hbound
    simp only [keptDevices]
    by_cases hcase : i = iCpu
    · subst hcase
      rw [if_neg (by rw [skipDevice_cpu_only]; simp [hTy]),
        ih (i + 1) (by omega), if_neg (by omega), if_pos (by omega)]
    · rw [if_pos (by rw [skipDevice_cpu_only]; exact huniq i (by omega) hcase),
        ih (i + 1) (by omega)]
      by_cases hin : i + 1 ≤ iCpu ∧ iCpu < i + 1 + n
      · rw [if_pos hin, if_pos (by omega)]
      · rw [if_neg hin, if_neg (by omega)]

lemma cpuIndexAfter_cpu_only (h : NnApi) (iCpu count : Nat)
    (hTy : (deviceWrapperAt h iCpu).type = ANEURALNETWORKS_DEVICE_CPU)
    (huniq : ∀ j, j < count → j ≠ iCpu →
      (deviceWrapperAt h j).type ≠ ANEURALNETWORKS_DEVICE_CPU) :
    ∀ (n i len : Nat) (c : Int), i + n ≤ count →
      cpuIndexAfter h TargetDeviceOption.CPU_ONLY i n len c
        = if i ≤ iCpu ∧ iCpu < i + n then (len : Int) else c := by
  intro n
  induction n with
  | zero => intro i len c _; rw [cpuIndexAfter, if_neg (by omega)]
  | succ n ih =>
    intro i len c hbound
    simp only [cpuIndexAfter]
    by_cases hcase : i = iCpu
    · subst hcase
      rw [if_neg (by rw [skipDevice_cpu_only]; simp [hTy]), if_pos hTy,
        ih (i + 1) (len + 1) ((len : Int)) (by omega), if_neg (by omega),
        if_pos (by omega)]
    · rw [if_pos (by rw [skipDevice_cpu_only]; exact huniq i (by omega) hcase),
        ih (i + 1) len c (by omega)]
      by_cases hin : i + 1 ≤ iCpu ∧ iCpu < i + 1 + n
      · rw [if_pos hin, if_pos (by omega)]
      · rw [if_neg hin, if_neg (by omega)]

lemma keptDevices_cpu_disabled (h : NnApi) :
    ∀ (n i : Nat), ∀ d ∈ keptDevices h TargetDeviceOption.CPU_DISABLED i n,
      d.type ≠ ANEURALNETWORKS_DEVICE_CPU := by
  intro n
  induction n with
  | zero => intro i d hd; simp [keptDevices] at hd
  | succ n ih =>
    intro i d hd
    simp only [keptDevices] at hd
    by_cases hskip :
        skipDevice TargetDeviceOption.CPU_DISABLED (deviceWrapperAt h i).type
    · rw [if_pos hskip] at hd
      exact ih (i + 1) d hd
    · rw [if_neg hskip] at hd
      rcases List.mem_cons.mp hd with hEq | hmem
      · subst hEq
        rw [skipDevice_cpu_disabled] at hskip
        exact hskip
      · exact ih (i + 1) d hmem

lemma cpuIndexAfter_cpu_disabled (h : NnApi) :
    ∀ (n i len : Nat) (c : Int),
      cpuIndexAfter h TargetDeviceOption.CPU_DISABLED i n len c = c := by
  intro n
  induction n with
  | zero => intro i len c; rw [cpuIndexAfter]
  | succ n ih =>
    intro i len c
    simp only [cpuIndexAfter]
    by_cases hskip :
        skipDevice TargetDeviceOption.CPU_DISABLED (deviceWrapperAt h i).type
    · rw [if_pos hskip, ih]
    · rw [if_neg hskip,
        if_neg (by rw [skipDevice_cpu_disabled] at hskip; exact hskip), ih]

end onnxruntime.nnapi

namespace onnxruntime.nnapi

lemma GetTargetDevices_ok_eq (h : NnApi) (opt : TargetDeviceOption)
    (devs0 : List DeviceWrapper)
    (hge : ¬ GetNNAPIRuntimeFeatureLevel h < ANEURALNETWORKS_FEATURE_LEVEL_3)
    (hcc : h.getDeviceCountCode = 0)
    (hq : ∀ j, j < h.getDeviceCountValue →
      gtdQuery h j = Except.ok (queryTuple h j)) :
    GetTargetDevices h opt devs0 =
      if cpuIndexAfter h opt 0 h.getDeviceCountValue devs0.length (-1) ≠ -1 ∧
          cpuIndexAfter h opt 0 h.getDeviceCountValue devs0.length (-1)
            ≠ ((devs0 ++ keptDevices h opt 0 h.getDeviceCountValue).length : Int)
              - 1 then
        (Status.ok,
          listSwap (devs0 ++ keptDevices h opt 0 h.getDeviceCountValue)
            (cpuIndexAfter h opt 0 h.getDeviceCountValue devs0.length (-1)).toNat
            ((devs0 ++ keptDevices h opt 0 h.getDeviceCountValue).length - 1))
      else (Status.ok, devs0 ++ keptDevices h opt 0 h.getDeviceCountValue) := by
  unfold GetTargetDevices
  rw [if_neg hge, if_neg (by simp [hcc]),
    gtdLoop_ok h opt h.getDeviceCountValue 0 devs0 (-1)
      (fun j _ hj => hq j (by omega))]

end onnxruntime.nnapi

namespace onnxruntime.nnapi

/-- C2: with one CPU device and all queries succeeding, the three policies. -/
theorem GetTargetDevices_policy (h : NnApi) (iCpu : Nat)
    (hge : ¬ GetNNAPIRuntimeFeatureLevel h < ANEURALNETWORKS_FEATURE_LEVEL_3)
    (hcc : h.getDeviceCountCode = 0)
    (hq : ∀ j, j < h.getDeviceCountValue →
      gtdQuery h j = Except.ok (queryTuple h j))
    (hiCpu : iCpu < h.getDeviceCountValue)
    (hTy : (deviceWrapperAt h iCpu).type = ANEURALNETWORKS_DEVICE_CPU)
    (huniq : ∀ j, j < h.getDeviceCountValue → j ≠ iCpu →
      (deviceWrapperAt h j).type ≠ ANEURALNETWORKS_DEVICE_CPU) :
    ((GetTargetDevices h TargetDeviceOption.ALL_DEVICES []).1 = Status.ok
      ∧ (GetTargetDevices h TargetDeviceOption.ALL_DEVICES []).2.length
          = h.getDeviceCountValue
      ∧ (∀ j, j < h.getDeviceCountValue →
          deviceWrapperAt h j ∈ (GetTargetDevices h TargetDeviceOption.ALL_DEVICES []).2)
      ∧ (GetTargetDevices h TargetDeviceOption.ALL_DEVICES []).2.getLast?
          = some (deviceWrapperAt h iCpu))
    ∧ GetTargetDevices h TargetDeviceOption.CPU_ONLY []
        = (Status.ok, [deviceWrapperAt h iCpu])
    ∧ ((GetTargetDevices h TargetDeviceOption.CPU_DISABLED []).1 = Status.ok
      ∧ ∀ d ∈ (GetTargetDevices h TargetDeviceOption.CPU_DISABLED []).2,
          d.type ≠ ANEURALNETWORKS_DEVICE_CPU) := by
  refine ⟨?_, ?_, ?_⟩
  · -- ALL_DEVICES
    have hres := GetTargetDevices_ok_eq h TargetDeviceOption.ALL_DEVICES [] hge hcc hq
    simp only [List.length_nil, List.nil_append] at hres
    have hidx : cpuIndexAfter h TargetDeviceOption.ALL_DEVICES 0
        h.getDeviceCountValue 0 (-1) = (iCpu : Int) := by
      rw [cpuIndexAfter_all h iCpu h.getDeviceCountValue hTy huniq
        h.getDeviceCountValue 0 0 (-1) (by omega), if_pos (by omega)]
      omega
    rw [hidx, keptDevices_all h h.getDeviceCountValue 0] at hres
    have hlen : ((List.range' 0 h.getDeviceCountValue).map (deviceWrapperAt h)).length
        = h.getDeviceCountValue := by simp
    have helem : ∀ j, j < h.getDeviceCountValue →
        ((List.range' 0 h.getDeviceCountValue).map (deviceWrapperAt h))[j]?
          = some (deviceWrapperAt h j) := by
      intro j hj
      rw [List.getElem?_eq_getElem (by rw [hlen]; exact hj)]
      simp
    by_cases hlast : iCpu = h.getDeviceCountValue - 1
    · rw [if_neg (by rw [hlen]; omega)] at hres
      have hfst : (GetTargetDevices h TargetDeviceOption.ALL_DEVICES []).1
          = Status.ok := by rw [hres]
      have hsnd : (GetTargetDevices h TargetDeviceOption.ALL_DEVICES []).2
          = (List.range' 0 h.getDeviceCountValue).map (deviceWrapperAt h) := by
        rw [hres]
      refine ⟨hfst, by rw [hsnd, hlen], ?_, ?_⟩
      · intro j hj
        rw [hsnd]
        exact List.getElem?_mem (helem j hj)
      · rw [hsnd, List.getLast?_eq_getElem?, hlen, helem _ (by omega), hlast]
    · rw [if_pos (by rw [hlen]; constructor <;> omega)] at hres
      rw [hlen, Int.toNat_ofNat] at hres
      have hfst : (GetTargetDevices h TargetDeviceOption.ALL_DEVICES []).1
          = Status.ok := by rw [hres]
      have hsnd : (GetTargetDevices h TargetDeviceOption.ALL_DEVICES []).2
          = listSwap ((List.range' 0 h.getDeviceCountValue).map (deviceWrapperAt h))
              iCpu (h.getDeviceCountValue - 1) := by rw [hres]
      set l := (List.range' 0 h.getDeviceCountValue).map (deviceWrapperAt h) with hl
      have hcount1 : h.getDeviceCountValue - 1 < l.length := by omega
      have hiCpul : iCpu < l.length := by omega
      have hgetDlast : l.getD (h.getDeviceCountValue - 1) default
          = deviceWrapperAt h (h.getDeviceCountValue - 1) := by
        rw [List.getD_eq_getElem?_getD, helem _ (by omega)]
        rfl
      have hgetDcpu : l.getD iCpu default = deviceWrapperAt h iCpu := by
        rw [List.getD_eq_getElem?_getD, helem _ hiCpu]
        rfl
      have hswaplen : (listSwap l iCpu (h.getDeviceCountValue - 1)).length
          = h.getDeviceCountValue := by
        simp only [listSwap, List.length_set]
        exact hlen
      refine ⟨hfst, by rw [hsnd, hswaplen], ?_, ?_⟩
      · intro j hj
        rw [hsnd]
        by_cases hj1 : j = iCpu
        · subst hj1
          have hv : (listSwap l j (h.getDeviceCountValue - 1))[h.getDeviceCountValue - 1]?
              = some (deviceWrapperAt h j) := by
            rw [List.getElem?_eq_getElem (by rw [hswaplen]; omega)]
            simp only [listSwap]
            rw [List.getElem_set_self, hgetDcpu]
          exact List.getElem?_mem hv
        · by_cases hj2 : j = h.getDeviceCountValue - 1
          · subst hj2
            have hv : (listSwap l iCpu (h.getDeviceCountValue - 1))[iCpu]?
                = some (deviceWrapperAt h (h.getDeviceCountValue - 1)) := by
              rw [List.getElem?_eq_getElem (by rw [hswaplen]; omega)]
              simp only [listSwap]
              rw [List.getElem_set_ne (by omega), List.getElem_set_self, hgetDlast]
            exact List.getElem?_mem hv
          · have hv : (listSwap l iCpu (h.getDeviceCountValue - 1))[j]?
                = some (deviceWrapperAt h j) := by
              rw [List.getElem?_eq_getElem (by rw [hswaplen]; omega)]
              simp only [listSwap]
              rw [List.getElem_set_ne (by omega), List.getElem_set_ne (by omega),
                ← List.getElem?_eq_getElem (show j < l.length by rw [hlen]; omega),
                helem j hj]
            exact List.getElem?_mem hv
      · rw [hsnd, List.getLast?_eq_getElem?, hswaplen,
          List.getElem?_eq_getElem (by rw [hswaplen]; omega)]
        simp only [listSwap]
        rw [List.getElem_set_self, hgetDcpu]
  · -- CPU_ONLY
    have hres := GetTargetDevices_ok_eq h TargetDeviceOption.CPU_ONLY [] hge hcc hq
    simp only [List.length_nil, List.nil_append] at hres
    have hkept : keptDevices h TargetDeviceOption.CPU_ONLY 0 h.getDeviceCountValue
        = [deviceWrapperAt h iCpu] := by
      rw [keptDevices_cpu_only h iCpu h.getDeviceCountValue hTy huniq
        h.getDeviceCountValue 0 (by omega), if_pos (by omega)]
    have hidx : cpuIndexAfter h TargetDeviceOption.CPU_ONLY 0
        h.getDeviceCountValue 0 (-1) = (0 : Int) := by
      rw [cpuIndexAfter_cpu_only h iCpu h.getDeviceCountValue hTy huniq
        h.getDeviceCountValue 0 0 (-1) (by omega), if_pos (by omega)]
      rfl
    rw [hkept, hidx, if_neg (by simp)] at hres
    exact hres
  · -- CPU_DISABLED
    have hres := GetTargetDevices_ok_eq h TargetDeviceOption.CPU_DISABLED [] hge hcc hq
    simp only [List.length_nil, List.nil_append] at hres
    rw [cpuIndexAfter_cpu_disabled h h.getDeviceCountValue 0 0 (-1),
      if_neg (by simp)] at hres
    have hfst : (GetTargetDevices h TargetDeviceOption.CPU_DISABLED []).1
        = Status.ok := by rw [hres]
    have hsnd : (GetTargetDevices h TargetDeviceOption.CPU_DISABLED []).2
        = keptDevices h TargetDeviceOption.CPU_DISABLED 0 h.getDeviceCountValue := by
      rw [hres]
    refine ⟨hfst, ?_⟩
    rw [hsnd]
    exact keptDevices_cpu_disabled h h.getDeviceCountValue 0

end onnxruntime.nnapi

namespace onnxruntime.nnapi

lemma foldlMax_le (l : List DeviceWrapper) (b : Int) :
    ∀ init : Int, init ≤ b → (∀ d ∈ l, d.feature_level ≤ b) →
      l.foldl (fun acc d => max d.feature_level acc) init ≤ b := by
  induction l with
  | nil => intro init hi _; simpa using hi
  | cons a l ih =>
    intro init hi hl
    simp only [List.foldl_cons]
    exact ih _ (max_le (hl a (by simp)) hi) (fun d hd => hl d (by simp [hd]))

lemma foldlMax_ge_init (l : List DeviceWrapper) :
    ∀ init : Int, init ≤ l.foldl (fun acc d => max d.feature_level acc) init := by
  induction l with
  | nil => intro init; simp
  | cons a l ih =>
    intro init
    simp only [List.foldl_cons]
    exact le_trans (le_max_right _ _) (ih (max a.feature_level init))

lemma foldlMax_ge (l : List DeviceWrapper) :
    ∀ (init : Int), ∀ d ∈ l,
      d.feature_level ≤ l.foldl (fun acc d => max d.feature_level acc) init := by
  induction l with
  | nil => intro init d hd; simp at hd
  | cons a l ih =>
    intro init d hd
    rcases List.mem_cons.mp hd with hEq | hmem
    · subst hEq
      simp only [List.foldl_cons]
      exact le_trans (le_max_left _ _) (foldlMax_ge_init l _)
    · simp only [List.foldl_cons]
      exact ih _ d hmem

lemma foldlMax_mem (l : List DeviceWrapper) :
    ∀ init : Int,
      l.foldl (fun acc d => max d.feature_level acc) init = init
      ∨ ∃ d ∈ l, l.foldl (fun acc d => max d.feature_level acc) init
          = d.feature_level := by
  induction l with
  | nil => intro init; simp
  | cons a l ih =>
    intro init
    simp only [List.foldl_cons]
    rcases ih (max a.feature_level init) with hEq | ⟨d, hd, hEq⟩
    · rcases max_choice a.feature_level init with hm | hm
      · right; exact ⟨a, by simp, by rw [hEq, hm]⟩
      · left; rw [hEq, hm]
    · right; exact ⟨d, by simp [hd], hEq⟩

/-- C10: an empty device list, or one whose feature levels are all
non-positive, leaves the runtime feature level uncapped. -/
theorem GetDeviceFeatureLevelInternal_ignores_nonpositive (h : NnApi)
    (devices : List DeviceWrapper)
    (hnp : devices = [] ∨ ∀ d ∈ devices, d.feature_level ≤ 0) :
    GetDeviceFeatureLevelInternal h devices = GetNNAPIRuntimeFeatureLevel h := by
  rcases hnp with hnil | hle
  · subst hnil
    unfold GetDeviceFeatureLevelInternal
    norm_num
  · have hF : devices.foldl (fun acc d => max d.feature_level acc) (-1) ≤ 0 :=
      foldlMax_le devices 0 (-1) (by omega) hle
    unfold GetDeviceFeatureLevelInternal
    rw [if_neg (by omega)]

theorem GetDeviceFeatureLevelInternal_ignores_nonpositive_witness :
    GetDeviceFeatureLevelInternal
        ⟨29, none, 0, 1, fun _ => 0, fun i => i, fun _ => 0, fun _ => "",
          fun _ => 0, fun _ => 2, fun _ => 0, fun _ => 0⟩
        [⟨0, "", 2, 0⟩]
      = GetNNAPIRuntimeFeatureLevel
        ⟨29, none, 0, 1, fun _ => 0, fun i => i, fun _ => 0, fun _ => "",
          fun _ => 0, fun _ => 2, fun _ => 0, fun _ => 0⟩ :=
  GetDeviceFeatureLevelInternal_ignores_nonpositive _ _
    (Or.inr (by intro d hd; simp only [List.mem_singleton] at hd; subst hd; decide))

/-- C4 counterexample: with one device of feature level 0 (so the maximum
device level is 0) and runtime level 29, the effective level is 29, above
`min 29 0 = 0`. -/
theorem GetNNAPIEffectiveFeatureLevel_cap_counterexample :
    ¬ (GetNNAPIEffectiveFeatureLevel
        ⟨29, none, 0, 1, fun _ => 0, fun i => i, fun _ => 0, fun _ => "",
          fun _ => 0, fun _ => 2, fun _ => 0, fun _ => 0⟩
        [⟨0, "", 2, 0⟩]
      ≤ min (GetNNAPIRuntimeFeatureLevel
          ⟨29, none, 0, 1, fun _ => 0, fun i => i, fun _ => 0, fun _ => "",
            fun _ => 0, fun _ => 2, fun _ => 0, fun _ => 0⟩)
          ((⟨0, "", 2, 0⟩ : DeviceWrapper).feature_level)) := by
  decide

/-- C4 (amended): when some device has a positive feature level, the
effective feature level is at most the runtime level and at most the
maximal device level (witnessed by some device bounding it). -/
theorem GetNNAPIEffectiveFeatureLevel_cap (h : NnApi)
    (devices : List DeviceWrapper)
    (hpos : ∃ d ∈ devices, 0 < d.feature_level) :
    GetNNAPIEffectiveFeatureLevel h devices
      = GetDeviceFeatureLevelInternal h devices
    ∧ GetNNAPIEffectiveFeatureLevel h devices ≤ GetNNAPIRuntimeFeatureLevel h
    ∧ ∃ d ∈ devices,
        GetNNAPIEffectiveFeatureLevel h devices ≤ d.feature_level := by
  obtain ⟨d0, hd0, hd0pos⟩ := hpos
  have hge := foldlMax_ge devices (-1) d0 hd0
  have hval : GetDeviceFeatureLevelInternal h devices =
      if devices.foldl (fun acc d => max d.feature_level acc) (-1) > 0
          ∧ devices.foldl (fun acc d => max d.feature_level acc) (-1)
            < GetNNAPIRuntimeFeatureLevel h
      then devices.foldl (fun acc d => max d.feature_level acc) (-1)
      else GetNNAPIRuntimeFeatureLevel h := rfl
  have heff : GetNNAPIEffectiveFeatureLevel h devices
      = GetDeviceFeatureLevelInternal h devices := rfl
  refine ⟨heff, ?_, ?_⟩
  · rw [heff, hval]
    split
    · omega
    · omega
  · rw [heff, hval]
    rcases foldlMax_mem devices (-1) with hinit | ⟨d, hd, hdEq⟩
    · exfalso; omega
    · refine ⟨d, hd, ?_⟩
      split
      · omega
      · omega

theorem GetNNAPIEffectiveFeatureLevel_cap_witness :
    GetNNAPIEffectiveFeatureLevel
        ⟨29, none, 0, 1, fun _ => 0, fun i => i, fun _ => 0, fun _ => "",
          fun _ => 0, fun _ => 2, fun _ => 0, fun _ => 5⟩
        [⟨0, "", 2, 5⟩]
      = GetDeviceFeatureLevelInternal
        ⟨29, none, 0, 1, fun _ => 0, fun i => i, fun _ => 0, fun _ => "",
          fun _ => 0, fun _ => 2, fun _ => 0, fun _ => 5⟩
        [⟨0, "", 2, 5⟩]
    ∧ GetNNAPIEffectiveFeatureLevel
        ⟨29, none, 0, 1, fun _ => 0, fun i => i, fun _ => 0, fun _ => "",
          fun _ => 0, fun _ => 2, fun _ => 0, fun _ => 5⟩
        [⟨0, "", 2, 5⟩]
      ≤ GetNNAPIRuntimeFeatureLevel
        ⟨29, none, 0, 1, fun _ => 0, fun i => i, fun _ => 0, fun _ => "",
          fun _ => 0, fun _ => 2, fun _ => 0, fun _ => 5⟩
    ∧ ∃ d ∈ [(⟨0, "", 2, 5⟩ : DeviceWrapper)],
        GetNNAPIEffectiveFeatureLevel
          ⟨29, none, 0, 1, fun _ => 0, fun i => i, fun _ => 0, fun _ => "",
            fun _ => 0, fun _ => 2, fun _ => 0, fun _ => 5⟩
          [⟨0, "", 2, 5⟩]
        ≤ d.feature_level :=
  GetNNAPIEffectiveFeatureLevel_cap _ _ ⟨⟨0, "", 2, 5⟩, by simp, by decide⟩

/-- C7: below NNAPI feature level 3, device enumeration degrades to an
empty successful result and the effective level is the runtime level. -/
theorem GetTargetDevices_low_feature_level (h : NnApi)
    (opt : TargetDeviceOption) (devices : List DeviceWrapper)
    (hlow : GetNNAPIRuntimeFeatureLevel h < ANEURALNETWORKS_FEATURE_LEVEL_3) :
    GetTargetDevices h opt devices = (Status.ok, devices)
    ∧ GetNNAPIEffectiveFeatureLevelFromTargetDeviceOption h opt
        = GetNNAPIRuntimeFeatureLevel h := by
  have h1 : ∀ ds, GetTargetDevices h opt ds = (Status.ok, ds) := by
    intro ds
    unfold GetTargetDevices
    rw [if_pos hlow]
  refine ⟨h1 devices, ?_⟩
  unfold GetNNAPIEffectiveFeatureLevelFromTargetDeviceOption
  rw [h1 []]
  show GetDeviceFeatureLevelInternal h [] = GetNNAPIRuntimeFeatureLevel h
  unfold GetDeviceFeatureLevelInternal
  norm_num

theorem GetTargetDevices_low_feature_level_witness :
    GetTargetDevices
        ⟨28, none, 0, 1, fun _ => 0, fun i => i, fun _ => 0, fun _ => "",
          fun _ => 0, fun _ => 2, fun _ => 0, fun _ => 30⟩
        TargetDeviceOption.ALL_DEVICES [] = (Status.ok, [])
    ∧ GetNNAPIEffectiveFeatureLevelFromTargetDeviceOption
        ⟨28, none, 0, 1, fun _ => 0, fun i => i, fun _ => 0, fun _ => "",
          fun _ => 0, fun _ => 2, fun _ => 0, fun _ => 30⟩
        TargetDeviceOption.ALL_DEVICES
      = GetNNAPIRuntimeFeatureLevel
        ⟨28, none, 0, 1, fun _ => 0, fun i => i, fun _ => 0, fun _ => "",
          fun _ => 0, fun _ => 2, fun _ => 0, fun _ => 30⟩ :=
  GetTargetDevices_low_feature_level _ _ _ (by decide)

/-- C9 counterexample: with runtime feature level `-1` the enumeration
gate returns success with no devices, yet the effective-level helper
returns `-1` — so `-1` does not unambiguously signal a failure. -/
theorem GetNNAPIEffectiveFromOption_neg1_counterexample :
    GetNNAPIEffectiveFeatureLevelFromTargetDeviceOption
        ⟨-1, none, 0, 0, fun _ => 0, fun i => i, fun _ => 0, fun _ => "",
          fun _ => 0, fun _ => 2, fun _ => 0, fun _ => 0⟩
        TargetDeviceOption.ALL_DEVICES = -1
    ∧ (GetTargetDevices
        ⟨-1, none, 0, 0, fun _ => 0, fun i => i, fun _ => 0, fun _ => "",
          fun _ => 0, fun _ => 2, fun _ => 0, fun _ => 0⟩
        TargetDeviceOption.ALL_DEVICES []).1 = Status.ok := by
  constructor
  · rfl
  · rfl

/-- C9 (amended): provided the runtime feature level is at least 1, the
helper returns `-1` exactly when device enumeration fails, and at least 1
on success. -/
theorem GetNNAPIEffectiveFromOption_neg1_iff (h : NnApi)
    (opt : TargetDeviceOption)
    (h1 : 1 ≤ GetNNAPIRuntimeFeatureLevel h) :
    (GetNNAPIEffectiveFeatureLevelFromTargetDeviceOption h opt = -1
      ↔ (GetTargetDevices h opt []).1 ≠ Status.ok)
    ∧ ((GetTargetDevices h opt []).1 = Status.ok →
        1 ≤ GetNNAPIEffectiveFeatureLevelFromTargetDeviceOption h opt) := by
  have hGDFLI : ∀ devs, 1 ≤ GetDeviceFeatureLevelInternal h devs := by
    intro devs
    have hval : GetDeviceFeatureLevelInternal h devs =
        if devs.foldl (fun acc d => max d.feature_level acc) (-1) > 0
            ∧ devs.foldl (fun acc d => max d.feature_level acc) (-1)
              < GetNNAPIRuntimeFeatureLevel h
        then devs.foldl (fun acc d => max d.feature_level acc) (-1)
        else GetNNAPIRuntimeFeatureLevel h := rfl
    rw [hval]
    split
    · omega
    · exact h1
  rcases hst : GetTargetDevices h opt [] with ⟨st, devs⟩
  cases st with
  | ok =>
    have heff : GetNNAPIEffectiveFeatureLevelFromTargetDeviceOption h opt
        = GetDeviceFeatureLevelInternal h devs := by
      unfold GetNNAPIEffectiveFeatureLevelFromTargetDeviceOption
      rw [hst]
    refine ⟨?_, ?_⟩
    · rw [heff]
      constructor
      · intro hEq
        exfalso
        have := hGDFLI devs
        omega
      · intro hne
        exfalso
        exact hne rfl
    · intro _
      rw [heff]
      exact hGDFLI devs
  | error e =>
    have heff : GetNNAPIEffectiveFeatureLevelFromTargetDeviceOption h opt
        = -1 := by
      unfold GetNNAPIEffectiveFeatureLevelFromTargetDeviceOption
      rw [hst]
    refine ⟨?_, ?_⟩
    · rw [heff]
      constructor
      · intro _
        simp
      · intro _
        rfl
    · intro hok
      simp at hok

end onnxruntime.nnapi

namespace onnxruntime.nnapi

lemma gtdQuery_spec (h : NnApi) (i : Nat) :
    gtdQuery h i = Except.ok (queryTuple h i)
    ∨ ∃ m, gtdQuery h i = Except.error m
        ∧ (m = deviceNote i "" ∨ m = deviceNote i "'s name"
          ∨ m = deviceNote i "'s type" ∨ m = deviceNote i "'s feature level") := by
  by_cases h1 : h.getDeviceCode i = 0
  · by_cases h2 : h.getNameCode (h.getDeviceValue i) = 0
    · by_cases h3 : h.getTypeCode (h.getDeviceValue i) = 0
      · by_cases h4 : h.getFeatureLevelCode (h.getDeviceValue i) = 0
        · left
          simp [gtdQuery, queryTuple, h1, h2, h3, h4]
        · right
          exact ⟨deviceNote i "'s feature level",
            by simp [gtdQuery, h1, h2, h3, h4], by simp⟩
      · right
        exact ⟨deviceNote i "'s type", by simp [gtdQuery, h1, h2, h3], by simp⟩
    · right
      exact ⟨deviceNote i "'s name", by simp [gtdQuery, h1, h2], by simp⟩
  · right
    exact ⟨deviceNote i "", by simp [gtdQuery, h1], by simp⟩

/-- C6: `GetTargetDevices` (at feature level 3 or above) returns a non-OK
status exactly when the device-count query or one of the per-device queries
fails, and every failure message is either the count note or one of the
four per-device notes naming the device index and the failed property. -/
theorem GetTargetDevices_error_characterization (h : NnApi)
    (opt : TargetDeviceOption) (devs0 : List DeviceWrapper)
    (hge : ¬ GetNNAPIRuntimeFeatureLevel h < ANEURALNETWORKS_FEATURE_LEVEL_3) :
    ((GetTargetDevices h opt devs0).1 ≠ Status.ok
      ↔ (h.getDeviceCountCode ≠ 0
        ∨ ∃ i, i < h.getDeviceCountValue
            ∧ ∃ m, gtdQuery h i = Except.error m))
    ∧ (∀ m, (GetTargetDevices h opt devs0).1 = Status.error m →
        m = "Getting count of available devices"
        ∨ ∃ i, i < h.getDeviceCountValue ∧ gtdQuery h i = Except.error m
            ∧ (m = deviceNote i "" ∨ m = deviceNote i "'s name"
              ∨ m = deviceNote i "'s type"
              ∨ m = deviceNote i "'s feature level")) := by
  by_cases hcc : h.getDeviceCountCode = 0
  · by_cases hfail : ∃ i, i < h.getDeviceCountValue
        ∧ ∃ m, gtdQuery h i = Except.error m
    · obtain ⟨i0, hi0count, hi0err⟩ := hfail
      letI : DecidablePred (fun n => ∃ m, gtdQuery h n = Except.error m) :=
        fun n => Classical.dec _
      have hexP : ∃ n, ∃ m, gtdQuery h n = Except.error m := ⟨i0, hi0err⟩
      obtain ⟨m0, hm0⟩ := Nat.find_spec hexP
      have hmin : ∀ j, j < Nat.find hexP →
          gtdQuery h j = Except.ok (queryTuple h j) := by
        intro j hj
        rcases gtdQuery_spec h j with hok | ⟨m, hm, _⟩
        · exact hok
        · exact absurd ⟨m, hm⟩ (Nat.find_min hexP hj)
      have hfcount : Nat.find hexP < h.getDeviceCountValue :=
        lt_of_le_of_lt (Nat.find_min' hexP hi0err) hi0count
      obtain ⟨c', hloop⟩ := gtdLoop_error h opt h.getDeviceCountValue 0
        (Nat.find hexP) m0 devs0 (-1) (by omega) (by omega)
        (fun j _ hj => hmin j hj) hm0
      simp only [Nat.sub_zero] at hloop
      have hres : GetTargetDevices h opt devs0
          = (Status.error m0,
              devs0 ++ keptDevices h opt 0 (Nat.find hexP)) := by
        unfold GetTargetDevices
        rw [if_neg hge, if_neg (by simp [hcc]), hloop]
      constructor
      · constructor
        · intro _
          exact Or.inr ⟨Nat.find hexP, hfcount, m0, hm0⟩
        · intro _
          rw [hres]
          simp
      · intro m hm
        rw [hres] at hm
        simp only [Status.error.injEq] at hm
        subst hm
        right
        refine ⟨Nat.find hexP, hfcount, hm0, ?_⟩
        rcases gtdQuery_spec h (Nat.find hexP) with hok | ⟨m', hm', hforms⟩
        · rw [hok] at hm0
          exact absurd hm0 (by simp)
        · rw [hm'] at hm0
          simp only [Except.error.injEq] at hm0
          subst hm0
          exact hforms
    · have hq : ∀ j, j < h.getDeviceCountValue →
          gtdQuery h j = Except.ok (queryTuple h j) := by
        intro j hj
        rcases gtdQuery_spec h j with hok | ⟨m, hm, _⟩
        · exact hok
        · exact absurd ⟨j, hj, m, hm⟩ hfail
      have hres := GetTargetDevices_ok_eq h opt devs0 hge hcc hq
      have hfst : (GetTargetDevices h opt devs0).1 = Status.ok := by
        rw [hres]
        split
        · rfl
        · rfl
      constructor
      · constructor
        · intro hne
          exact absurd hfst hne
        · intro hor
          rcases hor with hc | ⟨i, hi, m, hm⟩
          · exact absurd hcc hc
          · exact absurd ⟨i, hi, m, hm⟩ hfail
      · intro m hm
        rw [hfst] at hm
        exact Status.noConfusion hm
  · have hres : GetTargetDevices h opt devs0
        = (Status.error "Getting count of available devices", devs0) := by
      unfold GetTargetDevices
      rw [if_neg hge, if_pos hcc]
    constructor
    · constructor
      · intro _
        exact Or.inl hcc
      · intro _
        rw [hres]
        simp
    · intro m hm
      rw [hres] at hm
      simp only [Status.error.injEq] at hm
      exact Or.inl hm.symm

theorem GetTargetDevices_error_characterization_witness :
    (GetTargetDevices
        ⟨29, none, 0, 1, fun _ => 1, fun i => i, fun _ => 0, fun _ => "",
          fun _ => 0, fun _ => 2, fun _ => 0, fun _ => 0⟩
        TargetDeviceOption.ALL_DEVICES []).1 ≠ Status.ok :=
  (GetTargetDevices_error_characterization
      ⟨29, none, 0, 1, fun _ => 1, fun i => i, fun _ => 0, fun _ => "",
        fun _ => 0, fun _ => 2, fun _ => 0, fun _ => 0⟩
      TargetDeviceOption.ALL_DEVICES [] (by decide)).1.mpr
    (Or.inr ⟨0, by decide, "Getting 0th device", by rfl⟩)

/-- C8: a query failure at device index `f` leaves the devices appended for
the indices before `f` in the output and skips the CPU-last swap. -/
theorem GetTargetDevices_partial_on_error (h : NnApi)
    (opt : TargetDeviceOption) (devs0 : List DeviceWrapper) (f : Nat)
    (m : String)
    (hge : ¬ GetNNAPIRuntimeFeatureLevel h < ANEURALNETWORKS_FEATURE_LEVEL_3)
    (hcc : h.getDeviceCountCode = 0)
    (hf : f < h.getDeviceCountValue)
    (hok : ∀ j, j < f → gtdQuery h j = Except.ok (queryTuple h j))
    (herr : gtdQuery h f = Except.error m) :
    GetTargetDevices h opt devs0
      = (Status.error m, devs0 ++ keptDevices h opt 0 f) := by
  obtain ⟨c', hloop⟩ := gtdLoop_error h opt h.getDeviceCountValue 0 f m devs0
    (-1) (by omega) (by omega) (fun j _ hj => hok j hj) herr
  simp only [Nat.sub_zero] at hloop
  unfold GetTargetDevices
  rw [if_neg hge, if_neg (by simp [hcc]), hloop]

theorem GetTargetDevices_partial_on_error_witness :
    GetTargetDevices
        ⟨29, none, 0, 2, fun i => if i = 0 then 0 else 1, fun i => i,
          fun _ => 0, fun _ => "", fun _ => 0, fun _ => 3, fun _ => 0,
          fun _ => 30⟩
        TargetDeviceOption.ALL_DEVICES []
      = (Status.error "Getting 1th device",
          [] ++ keptDevices
            ⟨29, none, 0, 2, fun i => if i = 0 then 0 else 1, fun i => i,
              fun _ => 0, fun _ => "", fun _ => 0, fun _ => 3, fun _ => 0,
              fun _ => 30⟩
            TargetDeviceOption.ALL_DEVICES 0 1) :=
  GetTargetDevices_partial_on_error _ TargetDeviceOption.ALL_DEVICES [] 1
    "Getting 1th device" (by decide) (by decide) (by decide)
    (by intro j hj; interval_cases j; rfl) (by rfl)

theorem GetNNAPIEffectiveFromOption_neg1_iff_witness :
    (GetNNAPIEffectiveFeatureLevelFromTargetDeviceOption
        ⟨29, none, 0, 0, fun _ => 0, fun i => i, fun _ => 0, fun _ => "",
          fun _ => 0, fun _ => 2, fun _ => 0, fun _ => 0⟩
        TargetDeviceOption.ALL_DEVICES = -1
      ↔ (GetTargetDevices
          ⟨29, none, 0, 0, fun _ => 0, fun i => i, fun _ => 0, fun _ => "",
            fun _ => 0, fun _ => 2, fun _ => 0, fun _ => 0⟩
          TargetDeviceOption.ALL_DEVICES []).1 ≠ Status.ok)
    ∧ ((GetTargetDevices
          ⟨29, none, 0, 0, fun _ => 0, fun i => i, fun _ => 0, fun _ => "",
            fun _ => 0, fun _ => 2, fun _ => 0, fun _ => 0⟩
          TargetDeviceOption.ALL_DEVICES []).1 = Status.ok →
        1 ≤ GetNNAPIEffectiveFeatureLevelFromTargetDeviceOption
          ⟨29, none, 0, 0, fun _ => 0, fun i => i, fun _ => 0, fun _ => "",
            fun _ => 0, fun _ => 2, fun _ => 0, fun _ => 0⟩
          TargetDeviceOption.ALL_DEVICES) :=
  GetNNAPIEffectiveFromOption_neg1_iff _ TargetDeviceOption.ALL_DEVICES
    (by decide)

theorem GetTargetDevices_policy_witness :
    ((GetTargetDevices
        ⟨29, none, 0, 2, fun _ => 0, fun i => i, fun _ => 0, fun _ => "",
          fun _ => 0, fun i => if i = 0 then 2 else 3, fun _ => 0,
          fun _ => 30⟩
        TargetDeviceOption.ALL_DEVICES []).1 = Status.ok
      ∧ (GetTargetDevices
          ⟨29, none, 0, 2, fun _ => 0, fun i => i, fun _ => 0, fun _ => "",
            fun _ => 0, fun i => if i = 0 then 2 else 3, fun _ => 0,
            fun _ => 30⟩
          TargetDeviceOption.ALL_DEVICES []).2.length = 2
      ∧ (∀ j, j < 2 →
          deviceWrapperAt
            ⟨29, none, 0, 2, fun _ => 0, fun i => i, fun _ => 0, fun _ => "",
              fun _ => 0, fun i => if i = 0 then 2 else 3, fun _ => 0,
              fun _ => 30⟩ j
            ∈ (GetTargetDevices
              ⟨29, none, 0, 2, fun _ => 0, fun i => i, fun _ => 0,
                fun _ => "", fun _ => 0, fun i => if i = 0 then 2 else 3,
                fun _ => 0, fun _ => 30⟩
              TargetDeviceOption.ALL_DEVICES []).2)
      ∧ (GetTargetDevices
          ⟨29, none, 0, 2, fun _ => 0, fun i => i, fun _ => 0, fun _ => "",
            fun _ => 0, fun i => if i = 0 then 2 else 3, fun _ => 0,
            fun _ => 30⟩
          TargetDeviceOption.ALL_DEVICES []).2.getLast?
          = some (deviceWrapperAt
            ⟨29, none, 0, 2, fun _ => 0, fun i => i, fun _ => 0, fun _ => "",
              fun _ => 0, fun i => if i = 0 then 2 else 3, fun _ => 0,
              fun _ => 30⟩ 0))
    ∧ GetTargetDevices
        ⟨29, none, 0, 2, fun _ => 0, fun i => i, fun _ => 0, fun _ => "",
          fun _ => 0, fun i => if i = 0 then 2 else 3, fun _ => 0,
          fun _ => 30⟩
        TargetDeviceOption.CPU_ONLY []
        = (Status.ok, [deviceWrapperAt
            ⟨29, none, 0, 2, fun _ => 0, fun i => i, fun _ => 0, fun _ => "",
              fun _ => 0, fun i => if i = 0 then 2 else 3, fun _ => 0,
              fun _ => 30⟩ 0])
    ∧ ((GetTargetDevices
        ⟨29, none, 0, 2, fun _ => 0, fun i => i, fun _ => 0, fun _ => "",
          fun _ => 0, fun i => if i = 0 then 2 else 3, fun _ => 0,
          fun _ => 30⟩
        TargetDeviceOption.CPU_DISABLED []).1 = Status.ok
      ∧ ∀ d ∈ (GetTargetDevices
          ⟨29, none, 0, 2, fun _ => 0, fun i => i, fun _ => 0, fun _ => "",
            fun _ => 0, fun i => if i = 0 then 2 else 3, fun _ => 0,
            fun _ => 30⟩
          TargetDeviceOption.CPU_DISABLED []).2,
          d.type ≠ ANEURALNETWORKS_DEVICE_CPU) :=
  GetTargetDevices_policy _ 0 (by decide) (by decide)
    (by intro j hj; interval_cases j <;> rfl) (by decide) (by decide)
    (by intro j hj hne; interval_cases j
        · exact absurd rfl hne
        · decide)

end onnxruntime.nnapi
